import Mathlib

/-
Verification development for the airbus-systems hydraulic simulation core
(src/systems/src/hydraulic/mod.rs and src/systems/src/a320/hydraulic.rs).

Modelling conventions:
- f64 arithmetic is embedded as exact rational arithmetic (ℚ).
- Quantities are represented in the units the source reads them with
  (`get::<psi>()`, `get::<gallon>()`, `get::<gallon_per_second>()`,
  seconds, rpm, cubic inches): pressures in psi, volumes in US gallons,
  flows in gallons per second, time in seconds.  The uom library stores
  values in SI base units and converts on read; since every conversion is
  a fixed positive factor, representing each quantity directly in the
  read unit is an exact model.  The only place a conversion factor is
  needed is the bulk modulus, which is constructed in pascals
  (HydFluid::new(Pressure::new::<pascal>(1450000000.0))) and consumed in
  dimensionless ratios against psi-denominated pressures; it is converted
  once, below, with uom's psi coefficient 6.894757293168361e3 Pa/psi.
- Rust `Duration` values are embedded as ℚ seconds.
-/

/-- The uom crate's psi unit coefficient: one psi in pascals
(6.894757293168361e3, exact decimal of the f64 constant). -/
def PSI_IN_PASCAL : ℚ := 6894757293168361 / 1000000000000

/-- Conversion used when a pressure constructed in pascals is read in psi. -/
def pascalsToPsi (p : ℚ) : ℚ := p / PSI_IN_PASCAL

/-- Index search loop inside `interpolation` (hydraulic/mod.rs lines 26-33):
starting from `idx`, advance while `idx < xs.len()-1` and `x ≥ xs[idx]`. -/
def interpSearch (xs : List ℚ) (x : ℚ) (idx : ℕ) : ℕ :=
  if idx < xs.length - 1 then
    if x < xs.getD idx 0 then idx else interpSearch xs x (idx + 1)
  else idx
termination_by xs.length - idx

/-- Piecewise-linear interpolation of `ys` against `xs` at `x`
(hydraulic/mod.rs lines 15-37, `fn interpolation`).  Out-of-range inputs
clamp to the first / last element of `ys`. -/
def interpolation (xs ys : List ℚ) (x : ℚ) : ℚ :=
  if x ≤ xs.getD 0 0 then ys.getD 0 0
  else if x ≥ xs.getD (xs.length - 1) 0 then ys.getD (ys.length - 1) 0
  else
    let idx := interpSearch xs x 1
    ys.getD (idx - 1) 0 +
      (x - xs.getD (idx - 1) 0) / (xs.getD idx 0 - xs.getD (idx - 1) 0) *
        (ys.getD idx 0 - ys.getD (idx - 1) 0)

/-- LoopColor enumeration (hydraulic/mod.rs lines 175-180). -/
inductive LoopColor where
  | Blue
  | Green
  | Yellow
deriving DecidableEq, Repr

/-- HydFluid (hydraulic/mod.rs lines 210-226): holds the bulk modulus, psi. -/
structure HydFluid where
  current_bulk : ℚ
deriving DecidableEq, Repr

/-- HydFluid::new. -/
def HydFluid.new (bulk : ℚ) : HydFluid := ⟨bulk⟩

/-- HydFluid::get_bulk_mod. -/
def HydFluid.get_bulk_mod (f : HydFluid) : ℚ := f.current_bulk

/-- Power Transfer Unit state (hydraulic/mod.rs lines 230-237). -/
structure Ptu where
  isEnabled : Bool
  isActiveRight : Bool
  isActiveLeft : Bool
  flow_to_right : ℚ
  flow_to_left : ℚ
  last_flow : ℚ
deriving DecidableEq, Repr

/-- Ptu::FLOW_DYNAMIC_LOW_PASS_LEFT_SIDE. -/
def Ptu.FLOW_DYNAMIC_LOW_PASS_LEFT_SIDE : ℚ := 0.1

/-- Ptu::FLOW_DYNAMIC_LOW_PASS_RIGHT_SIDE. -/
def Ptu.FLOW_DYNAMIC_LOW_PASS_RIGHT_SIDE : ℚ := 0.1

/-- Ptu::AGRESSIVENESS_FACTOR. -/
def Ptu.AGRESSIVENESS_FACTOR : ℚ := 0.6

/-- Ptu::new (hydraulic/mod.rs lines 249-260). -/
def Ptu.new : Ptu :=
  { isEnabled := false
    isActiveRight := false
    isActiveLeft := false
    flow_to_right := 0
    flow_to_left := 0
    last_flow := 0 }

/-- Ptu::get_is_active. -/
def Ptu.get_is_active (p : Ptu) : Bool := p.isActiveRight || p.isActiveLeft

/-- Ptu::enabling (hydraulic/mod.rs lines 335-337). -/
def Ptu.enabling (p : Ptu) (enable_flag : Bool) : Ptu :=
  { p with isEnabled := enable_flag }

/-- Hydraulic loop state (hydraulic/mod.rs lines 340-359). -/
structure HydLoop where
  fluid : HydFluid
  accumulator_gas_pressure : ℚ
  accumulator_gas_volume : ℚ
  accumulator_fluid_volume : ℚ
  accumulator_press_breakpoints : List ℚ
  accumulator_flow_carac : List ℚ
  color : LoopColor
  connected_to_ptu_left_side : Bool
  connected_to_ptu_right_side : Bool
  loop_pressure : ℚ
  loop_volume : ℚ
  max_loop_volume : ℚ
  high_pressure_volume : ℚ
  ptu_active : Bool
  reservoir_volume : ℚ
  current_delta_vol : ℚ
  current_flow : ℚ
  current_max_flow : ℚ
deriving DecidableEq, Repr

/-- HydLoop::ACCUMULATOR_GAS_PRE_CHARGE (psi). -/
def HydLoop.ACCUMULATOR_GAS_PRE_CHARGE : ℚ := 1885

/-- HydLoop::ACCUMULATOR_MAX_VOLUME (gallons). -/
def HydLoop.ACCUMULATOR_MAX_VOLUME : ℚ := 0.264

/-- HydLoop::PRESSURE_LOW_PASS_FILTER. -/
def HydLoop.PRESSURE_LOW_PASS_FILTER : ℚ := 0.75

/-- HydLoop::DELTA_VOL_LOW_PASS_FILTER. -/
def HydLoop.DELTA_VOL_LOW_PASS_FILTER : ℚ := 0.1

/-- HydLoop::ACCUMULATOR_PRESS_BREAKPTS. -/
def HydLoop.ACCUMULATOR_PRESS_BREAKPTS : List ℚ :=
  [0, 5, 10, 50, 100, 200, 500, 1000, 10000]

/-- HydLoop::ACCUMULATOR_FLOW_CARAC. -/
def HydLoop.ACCUMULATOR_FLOW_CARAC : List ℚ :=
  [0, 0.005, 0.008, 0.01, 0.02, 0.08, 0.15, 0.35, 0.5]

/-- HydLoop::new (hydraulic/mod.rs lines 378-408). -/
def HydLoop.new (color : LoopColor)
    (connected_to_ptu_left_side connected_to_ptu_right_side : Bool)
    (loop_volume max_loop_volume high_pressure_volume reservoir_volume : ℚ)
    (fluid : HydFluid) : HydLoop :=
  { fluid
    accumulator_gas_pressure := HydLoop.ACCUMULATOR_GAS_PRE_CHARGE
    accumulator_gas_volume := HydLoop.ACCUMULATOR_MAX_VOLUME
    accumulator_fluid_volume := 0
    accumulator_press_breakpoints := HydLoop.ACCUMULATOR_PRESS_BREAKPTS
    accumulator_flow_carac := HydLoop.ACCUMULATOR_FLOW_CARAC
    color
    connected_to_ptu_left_side
    connected_to_ptu_right_side
    loop_pressure := 14.7
    loop_volume
    max_loop_volume
    high_pressure_volume
    ptu_active := false
    reservoir_volume
    current_delta_vol := 0
    current_flow := 0
    current_max_flow := 0 }

/-- HydLoop::get_pressure. -/
def HydLoop.get_pressure (s : HydLoop) : ℚ := s.loop_pressure

/-- Core of HydLoop::get_usable_reservoir_flow (lines 427-435), parametrised
by the current reservoir content so the same computation can be used while
the reservoir is being mutated inside the PTU flow loop. -/
def usableReservoirFlow (reservoir amount delta_time : ℚ) : ℚ :=
  if amount > reservoir / delta_time then reservoir / delta_time else amount

/-- HydLoop::get_usable_reservoir_flow. -/
def HydLoop.get_usable_reservoir_flow (s : HydLoop) (amount delta_time : ℚ) : ℚ :=
  usableReservoirFlow s.reservoir_volume amount delta_time

/-- HydLoop::delta_pressure_from_delta_volume (lines 439-441). -/
def HydLoop.delta_pressure_from_delta_volume (s : HydLoop) (delta_vol : ℚ) : ℚ :=
  delta_vol / s.high_pressure_volume * s.fluid.get_bulk_mod

/-- HydLoop::vol_to_target (lines 444-446). -/
def HydLoop.vol_to_target (s : HydLoop) (target_press : ℚ) : ℚ :=
  (target_press - s.loop_pressure) * s.high_pressure_volume / s.fluid.get_bulk_mod

/-- Mutable state threaded through the PTU flow loop of HydLoop::update
(lines 489-525): running delta_vol, the loop's reservoir (mutated in
place by the source), the pending reservoir return, and the ptu_act flag. -/
structure PtuFlowState where
  delta_vol : ℚ
  reservoir_volume : ℚ
  reservoir_return : ℚ
  ptu_act : Bool
deriving DecidableEq, Repr

/-- One iteration of the `for ptu in ptus` loop in HydLoop::update
(lines 491-524).  Note the source tests `ptu.isActiveLeft || ptu.isActiveLeft`
on both sides (the isActiveRight flag is never consulted). -/
def HydLoop.ptu_flows_step (s : HydLoop) (delta_time : ℚ)
    (acc : PtuFlowState) (ptu : Ptu) : PtuFlowState :=
  if s.connected_to_ptu_left_side then
    let act := acc.ptu_act || (ptu.isActiveLeft || ptu.isActiveLeft)
    if ptu.flow_to_left > 0 then
      let actualFlow := usableReservoirFlow acc.reservoir_volume ptu.flow_to_left delta_time
      { delta_vol := acc.delta_vol + actualFlow * delta_time
        reservoir_volume := acc.reservoir_volume - actualFlow * delta_time
        reservoir_return := acc.reservoir_return
        ptu_act := act }
    else
      { delta_vol := acc.delta_vol + ptu.flow_to_left * delta_time
        reservoir_volume := acc.reservoir_volume
        reservoir_return := acc.reservoir_return - ptu.flow_to_left * delta_time
        ptu_act := act }
  else if s.connected_to_ptu_right_side then
    let act := acc.ptu_act || (ptu.isActiveLeft || ptu.isActiveLeft)
    if ptu.flow_to_right > 0 then
      let actualFlow := usableReservoirFlow acc.reservoir_volume ptu.flow_to_right delta_time
      { delta_vol := acc.delta_vol + actualFlow * delta_time
        reservoir_volume := acc.reservoir_volume - actualFlow * delta_time
        reservoir_return := acc.reservoir_return
        ptu_act := act }
    else
      { delta_vol := acc.delta_vol + ptu.flow_to_right * delta_time
        reservoir_volume := acc.reservoir_volume
        reservoir_return := acc.reservoir_return - ptu.flow_to_right * delta_time
        ptu_act := act }
  else acc

/-- Result of the accumulator block of HydLoop::update (lines 545-562):
new accumulator fluid volume, new gas volume, and updated delta_vol. -/
structure AccumulatorState where
  accumulator_fluid_volume : ℚ
  accumulator_gas_volume : ℚ
  delta_vol : ℚ
deriving DecidableEq, Repr

/-- Accumulator block of HydLoop::update (lines 545-562).  When the gas
pressure exceeds the loop pressure the accumulator discharges
min(accumulator fluid, flow·dt) into the loop; otherwise the loop charges
the accumulator with `delta_vol.max(0).max(flowVariation * dt)` (this is
the source's expression, two `max` calls). -/
def HydLoop.accumulator_stage (s : HydLoop) (delta_time delta_vol : ℚ) :
    AccumulatorState :=
  let accumulatorDeltaPress := s.accumulator_gas_pressure - s.loop_pressure
  let flowVariation := interpolation s.accumulator_press_breakpoints
    s.accumulator_flow_carac |accumulatorDeltaPress|
  if accumulatorDeltaPress > 0 then
    let volumeFromAcc := min s.accumulator_fluid_volume (flowVariation * delta_time)
    { accumulator_fluid_volume := s.accumulator_fluid_volume - volumeFromAcc
      accumulator_gas_volume := s.accumulator_gas_volume + volumeFromAcc
      delta_vol := delta_vol + volumeFromAcc }
  else
    let volumeToAcc := max (max delta_vol 0) (flowVariation * delta_time)
    { accumulator_fluid_volume := s.accumulator_fluid_volume + volumeToAcc
      accumulator_gas_volume := s.accumulator_gas_volume - volumeToAcc
      delta_vol := delta_vol - volumeToAcc }

/-- Ptu::update (hydraulic/mod.rs lines 278-333). -/
def Ptu.update (p : Ptu) (loopLeft loopRight : HydLoop) : Ptu :=
  if p.isEnabled then
    let deltaP := loopLeft.get_pressure - loopRight.get_pressure
    let p1 :=
      if p.isActiveLeft = true ∨ (p.isActiveRight = false ∧ deltaP > 500) then
        let vr0 := min 16 (loopLeft.loop_pressure * 0.0058) / 60
        let vr1 := min vr0 (loopLeft.current_max_flow * Ptu.AGRESSIVENESS_FACTOR)
        let vr := Ptu.FLOW_DYNAMIC_LOW_PASS_LEFT_SIDE * vr1 +
          (1 - Ptu.FLOW_DYNAMIC_LOW_PASS_LEFT_SIDE) * p.last_flow
        { p with
          flow_to_left := -vr
          flow_to_right := vr * 0.81
          last_flow := vr
          isActiveLeft := true }
      else if p.isActiveRight = true ∨ (p.isActiveLeft = false ∧ deltaP < -500) then
        let vr0 := min 34 (loopRight.loop_pressure * 0.0125) / 60
        let vr1 := min vr0 (loopRight.current_max_flow * Ptu.AGRESSIVENESS_FACTOR)
        let vr := Ptu.FLOW_DYNAMIC_LOW_PASS_RIGHT_SIDE * vr1 +
          (1 - Ptu.FLOW_DYNAMIC_LOW_PASS_RIGHT_SIDE) * p.last_flow
        { p with
          flow_to_left := vr * 0.70
          flow_to_right := -vr
          last_flow := vr
          isActiveRight := true }
      else p
    if (p1.isActiveRight = true ∧ loopLeft.loop_pressure > 3001) ∨
        (p1.isActiveLeft = true ∧ loopRight.loop_pressure > 3001) ∨
        (p1.isActiveRight = true ∧ loopRight.loop_pressure < 500) ∨
        (p1.isActiveLeft = true ∧ loopLeft.loop_pressure < 500) then
      { p1 with
        flow_to_left := 0
        flow_to_right := 0
        isActiveRight := false
        isActiveLeft := false
        last_flow := 0 }
    else p1
  else p

/-- Pump substrate (hydraulic/mod.rs lines 619-625). -/
structure Pump where
  delta_vol_max : ℚ
  delta_vol_min : ℚ
  pressBreakpoints : List ℚ
  displacementCarac : List ℚ
  displacement_dynamic : ℚ
deriving DecidableEq, Repr

/-- Pump::new. -/
def Pump.new (pressBreakpoints displacementCarac : List ℚ)
    (displacement_dynamic : ℚ) : Pump :=
  { delta_vol_max := 0
    delta_vol_min := 0
    pressBreakpoints
    displacementCarac
    displacement_dynamic }

/-- Pump::calculate_displacement (lines 646-648): displacement in cubic
inches, interpolated against the loop pressure. -/
def Pump.calculate_displacement (p : Pump) (pressure : ℚ) : ℚ :=
  interpolation p.pressBreakpoints p.displacementCarac pressure

/-- Pump::calculate_flow (lines 650-652): gallons per second. -/
def Pump.calculate_flow (rpm displacement : ℚ) : ℚ :=
  rpm * displacement / 231 / 60

/-- Pump::update (lines 637-644). -/
def Pump.update (p : Pump) (delta_time : ℚ) (line : HydLoop) (rpm : ℚ) : Pump :=
  let displacement := p.calculate_displacement line.get_pressure
  let flow := Pump.calculate_flow rpm displacement
  { p with
    delta_vol_max := (1 - p.displacement_dynamic) * p.delta_vol_max +
      p.displacement_dynamic * flow * delta_time
    delta_vol_min := 0 }

/-- ElectricPump state (hydraulic/mod.rs lines 664-668). -/
structure ElectricPump where
  active : Bool
  rpm : ℚ
  pump : Pump
deriving DecidableEq, Repr

/-- ElectricPump::SPOOLUP_TIME. -/
def ElectricPump.SPOOLUP_TIME : ℚ := 4.0

/-- ElectricPump::SPOOLDOWN_TIME. -/
def ElectricPump.SPOOLDOWN_TIME : ℚ := 4.0

/-- ElectricPump::NOMINAL_SPEED. -/
def ElectricPump.NOMINAL_SPEED : ℚ := 7600.0

/-- ElectricPump::DISPLACEMENT_BREAKPTS. -/
def ElectricPump.DISPLACEMENT_BREAKPTS : List ℚ :=
  [0, 500, 1000, 1500, 2800, 2900, 3000, 3050, 3500]

/-- ElectricPump::DISPLACEMENT_MAP. -/
def ElectricPump.DISPLACEMENT_MAP : List ℚ :=
  [0.263, 0.263, 0.263, 0.263, 0.263, 0.263, 0.163, 0, 0]

/-- ElectricPump::DISPLACEMENT_DYNAMICS. -/
def ElectricPump.DISPLACEMENT_DYNAMICS : ℚ := 1.0

/-- ElectricPump::new. -/
def ElectricPump.new : ElectricPump :=
  { active := false
    rpm := 0
    pump := Pump.new ElectricPump.DISPLACEMENT_BREAKPTS
      ElectricPump.DISPLACEMENT_MAP ElectricPump.DISPLACEMENT_DYNAMICS }

/-- ElectricPump::start. -/
def ElectricPump.start (e : ElectricPump) : ElectricPump := { e with active := true }

/-- ElectricPump::stop. -/
def ElectricPump.stop (e : ElectricPump) : ElectricPump := { e with active := false }

/-- ElectricPump::update (lines 697-710): first-order spool-up/down about
the nominal speed, clamped to [0, 7600], then the pump substrate update. -/
def ElectricPump.update (e : ElectricPump) (delta_time : ℚ) (line : HydLoop) :
    ElectricPump :=
  let rpm1 :=
    if e.active = true ∧ e.rpm < ElectricPump.NOMINAL_SPEED then
      e.rpm + ElectricPump.NOMINAL_SPEED / ElectricPump.SPOOLUP_TIME * delta_time
    else if e.active = false ∧ e.rpm > 0 then
      e.rpm - ElectricPump.NOMINAL_SPEED / ElectricPump.SPOOLDOWN_TIME * delta_time
    else e.rpm
  let rpm2 := max (min rpm1 ElectricPump.NOMINAL_SPEED) 0
  { e with rpm := rpm2, pump := e.pump.update delta_time line rpm2 }

/-- Engine input (src/systems engine module is not under src/; modelled
from the spec, section 6.3: a read-only n2 ratio in percent, the only
field the hydraulic code samples, via engine.n2.get::<percent>()). -/
structure Engine where
  n2 : ℚ
deriving DecidableEq, Repr

/-- EngineDrivenPump state (hydraulic/mod.rs lines 721-724). -/
structure EngineDrivenPump where
  active : Bool
  pump : Pump
deriving DecidableEq, Repr

/-- EngineDrivenPump::DISPLACEMENT_BREAKPTS. -/
def EngineDrivenPump.DISPLACEMENT_BREAKPTS : List ℚ :=
  [0, 500, 1000, 1500, 2800, 2900, 3000, 3050, 3500]

/-- EngineDrivenPump::DISPLACEMENT_MAP. -/
def EngineDrivenPump.DISPLACEMENT_MAP : List ℚ :=
  [2.4, 2.4, 2.4, 2.4, 2.4, 2.4, 2.0, 0, 0]

/-- EngineDrivenPump::MAX_RPM. -/
def EngineDrivenPump.MAX_RPM : ℚ := 4000

/-- EngineDrivenPump::DISPLACEMENT_DYNAMICS. -/
def EngineDrivenPump.DISPLACEMENT_DYNAMICS : ℚ := 0.05

/-- EngineDrivenPump::new. -/
def EngineDrivenPump.new : EngineDrivenPump :=
  { active := false
    pump := Pump.new EngineDrivenPump.DISPLACEMENT_BREAKPTS
      EngineDrivenPump.DISPLACEMENT_MAP EngineDrivenPump.DISPLACEMENT_DYNAMICS }

/-- EngineDrivenPump::start. -/
def EngineDrivenPump.start (e : EngineDrivenPump) : EngineDrivenPump :=
  { e with active := true }

/-- EngineDrivenPump::stop. -/
def EngineDrivenPump.stop (e : EngineDrivenPump) : EngineDrivenPump :=
  { e with active := false }

/-- EngineDrivenPump::update (lines 746-754): rpm derived from engine N2
(quadratic, capped at MAX_RPM), forced to zero when inactive. -/
def EngineDrivenPump.update (e : EngineDrivenPump) (delta_time : ℚ)
    (line : HydLoop) (engine : Engine) : EngineDrivenPump :=
  let rpm0 := min EngineDrivenPump.MAX_RPM
    (engine.n2 ^ 2 * 0.08 * EngineDrivenPump.MAX_RPM / 100)
  let rpm := if e.active = false then 0 else rpm0
  { e with pump := e.pump.update delta_time line rpm }

/-- RatPump state (hydraulic/mod.rs lines 773-776). -/
structure RatPump where
  active : Bool
  pump : Pump
deriving DecidableEq, Repr

/-- RatPump::DISPLACEMENT_BREAKPTS. -/
def RatPump.DISPLACEMENT_BREAKPTS : List ℚ :=
  [0, 500, 1000, 1500, 2800, 2900, 3000, 3050, 3500]

/-- RatPump::DISPLACEMENT_MAP. -/
def RatPump.DISPLACEMENT_MAP : List ℚ :=
  [1.15, 1.15, 1.15, 1.15, 1.15, 1.15, 0.9, 0, 0]

/-- RatPump::NORMAL_RPM. -/
def RatPump.NORMAL_RPM : ℚ := 6000

/-- RatPump::DISPLACEMENT_DYNAMICS. -/
def RatPump.DISPLACEMENT_DYNAMICS : ℚ := 1.0

/-- RatPump::new. -/
def RatPump.new : RatPump :=
  { active := false
    pump := Pump.new RatPump.DISPLACEMENT_BREAKPTS RatPump.DISPLACEMENT_MAP
      RatPump.DISPLACEMENT_DYNAMICS }

/-- RatPump::update (lines 796-798). -/
def RatPump.update (r : RatPump) (delta_time : ℚ) (line : HydLoop) : RatPump :=
  { r with pump := r.pump.update delta_time line RatPump.NORMAL_RPM }

/-- HydLoop::update (hydraulic/mod.rs lines 449-612).  The priming block
(lines 530-541) is written as a single transfer amount `delta_loop_vol`
which is zero when the loop is already at its max volume. -/
def HydLoop.update (s : HydLoop) (delta_time : ℚ)
    (electric_pumps : List ElectricPump)
    (engine_driven_pumps : List EngineDrivenPump)
    (ram_air_pumps : List RatPump)
    (ptus : List Ptu) : HydLoop :=
  let delta_vol_max :=
    (engine_driven_pumps.map fun p => p.pump.delta_vol_max).sum +
      (electric_pumps.map fun p => p.pump.delta_vol_max).sum +
        (ram_air_pumps.map fun p => p.pump.delta_vol_max).sum
  let delta_vol_min :=
    (engine_driven_pumps.map fun p => p.pump.delta_vol_min).sum +
      (electric_pumps.map fun p => p.pump.delta_vol_min).sum +
        (ram_air_pumps.map fun p => p.pump.delta_vol_min).sum
  let current_max_flow := delta_vol_max / delta_time
  let static_leaks_vol := 0.04 * delta_time * (s.loop_pressure - 14.7) / 3000
  let pf := ptus.foldl (s.ptu_flows_step delta_time)
    { delta_vol := 0 - static_leaks_vol
      reservoir_volume := s.reservoir_volume
      reservoir_return := 0 + static_leaks_vol
      ptu_act := false }
  let delta_loop_vol :=
    if s.loop_volume < s.max_loop_volume then
      min (min pf.reservoir_volume delta_vol_max) (s.max_loop_volume - s.loop_volume)
    else 0
  let delta_vol_max2 := delta_vol_max - delta_loop_vol
  let loop_volume2 := s.loop_volume + delta_loop_vol
  let reservoir2 := pf.reservoir_volume - delta_loop_vol
  let acc := s.accumulator_stage delta_time pf.delta_vol
  let accumulator_gas_pressure :=
    HydLoop.ACCUMULATOR_GAS_PRE_CHARGE * HydLoop.ACCUMULATOR_MAX_VOLUME /
      (HydLoop.ACCUMULATOR_MAX_VOLUME - acc.accumulator_fluid_volume)
  let used_fluidQty : ℚ := 0
  let delta_vol3 := acc.delta_vol - used_fluidQty
  let volume_needed_to_reach_pressure_target := s.vol_to_target 3000 - delta_vol3
  let actual_volume_added_to_pressurise :=
    min reservoir2
      (max delta_vol_min (min delta_vol_max2 volume_needed_to_reach_pressure_target))
  let delta_vol4 := delta_vol3 + actual_volume_added_to_pressurise
  let press_delta := s.delta_pressure_from_delta_volume delta_vol4
  let new_raw_press := s.loop_pressure + press_delta
  let loop_pressure2 := HydLoop.PRESSURE_LOW_PASS_FILTER * new_raw_press +
    (1 - HydLoop.PRESSURE_LOW_PASS_FILTER) * s.loop_pressure
  let loop_pressure3 := max loop_pressure2 14.7
  let reservoir3 := reservoir2 - actual_volume_added_to_pressurise + pf.reservoir_return
  let delta_vol5 := HydLoop.DELTA_VOL_LOW_PASS_FILTER * delta_vol4 +
    (1 - HydLoop.DELTA_VOL_LOW_PASS_FILTER) * s.current_delta_vol
  { s with
    current_max_flow := current_max_flow
    accumulator_fluid_volume := acc.accumulator_fluid_volume
    accumulator_gas_volume := acc.accumulator_gas_volume
    accumulator_gas_pressure := accumulator_gas_pressure
    ptu_active := pf.ptu_act
    loop_pressure := loop_pressure3
    reservoir_volume := reservoir3
    loop_volume := loop_volume2 + delta_vol5
    current_delta_vol := delta_vol5
    current_flow := delta_vol5 / delta_time }

/-- Position of an auto/off overhead push button.  Modelled from the spec:
the overhead module (AutoOffFaultPushButton) is not under src/; section 6.1
of the spec reads such buttons only through is_auto()/is_off(), so the
position is two-valued. -/
inductive AutoOffFaultPushButtonPosition where
  | Auto
  | Off
deriving DecidableEq, Repr

/-- AutoOffFaultPushButton::is_auto. -/
def AutoOffFaultPushButtonPosition.is_auto : AutoOffFaultPushButtonPosition → Bool
  | .Auto => true
  | .Off => false

/-- AutoOffFaultPushButton::is_off. -/
def AutoOffFaultPushButtonPosition.is_off : AutoOffFaultPushButtonPosition → Bool
  | .Auto => false
  | .Off => true

/-- Position of an on/off overhead push button.  Modelled from the spec:
the overhead module (OnOffFaultPushButton) is not under src/; section 6.1
reads such buttons only through is_on()/is_off(). -/
inductive OnOffFaultPushButtonPosition where
  | On
  | Off
deriving DecidableEq, Repr

/-- OnOffFaultPushButton::is_on. -/
def OnOffFaultPushButtonPosition.is_on : OnOffFaultPushButtonPosition → Bool
  | .On => true
  | .Off => false

/-- OnOffFaultPushButton::is_off. -/
def OnOffFaultPushButtonPosition.is_off : OnOffFaultPushButtonPosition → Bool
  | .On => false
  | .Off => true

/-- A320HydraulicOverheadPanel (a320/hydraulic.rs lines 251-258), reduced
to the button positions the hydraulic logic reads. -/
structure A320HydraulicOverheadPanel where
  edp1_push_button : AutoOffFaultPushButtonPosition
  edp2_push_button : AutoOffFaultPushButtonPosition
  blue_epump_push_button : AutoOffFaultPushButtonPosition
  ptu_push_button : AutoOffFaultPushButtonPosition
  rat_push_button : OnOffFaultPushButtonPosition
  yellow_epump_push_button : OnOffFaultPushButtonPosition
deriving DecidableEq, Repr

/-- A320HydraulicLogic (a320/hydraulic.rs lines 214-233). -/
structure A320HydraulicLogic where
  parking_brake_applied : Bool
  weight_on_wheels : Bool
  eng_1_master_on : Bool
  eng_2_master_on : Bool
  nws_tow_engaged : Bool
  cargo_door_operation : Bool
deriving DecidableEq, Repr

/-- A320HydraulicLogic::new. -/
def A320HydraulicLogic.new : A320HydraulicLogic :=
  { parking_brake_applied := true
    weight_on_wheels := true
    eng_1_master_on := false
    eng_2_master_on := false
    nws_tow_engaged := false
    cargo_door_operation := false }

/-- A320Hydraulic state (a320/hydraulic.rs lines 14-29). -/
structure A320Hydraulic where
  hyd_logic_inputs : A320HydraulicLogic
  blue_loop : HydLoop
  green_loop : HydLoop
  yellow_loop : HydLoop
  engine_driven_pump_1 : EngineDrivenPump
  engine_driven_pump_2 : EngineDrivenPump
  blue_electric_pump : ElectricPump
  yellow_electric_pump : ElectricPump
  ptu : Ptu
  total_sim_time_elapsed : ℚ
  lag_time_accumulator : ℚ
  debug_refresh_duration : ℚ
deriving DecidableEq, Repr

/-- A320Hydraulic::MIN_PRESS_PRESSURISED. -/
def A320Hydraulic.MIN_PRESS_PRESSURISED : ℚ := 300.0

/-- A320Hydraulic::HYDRAULIC_SIM_TIME_STEP, as seconds (100 ms). -/
def A320Hydraulic.HYDRAULIC_SIM_TIME_STEP : ℚ := 100 / 1000

/-- A320Hydraulic::ACTUATORS_SIM_TIME_STEP_MULT. -/
def A320Hydraulic.ACTUATORS_SIM_TIME_STEP_MULT : ℕ := 2

/-- A320Hydraulic::new (a320/hydraulic.rs lines 36-78).  Note the yellow
loop is constructed with LoopColor::Blue (the copy-paste the spec flags in
section 9) and connected to the PTU right side. -/
def A320Hydraulic.new : A320Hydraulic :=
  { hyd_logic_inputs := A320HydraulicLogic.new
    blue_loop := HydLoop.new LoopColor.Blue false false 15.85 15.85 8.0 1.5
      (HydFluid.new (pascalsToPsi 1450000000))
    green_loop := HydLoop.new LoopColor.Green true false 10.2 10.2 8.0 3.3
      (HydFluid.new (pascalsToPsi 1450000000))
    yellow_loop := HydLoop.new LoopColor.Blue false true 26.00 26.41 10.0 3.83
      (HydFluid.new (pascalsToPsi 1450000000))
    engine_driven_pump_1 := EngineDrivenPump.new
    engine_driven_pump_2 := EngineDrivenPump.new
    blue_electric_pump := ElectricPump.new
    yellow_electric_pump := ElectricPump.new
    ptu := Ptu.new
    total_sim_time_elapsed := 0
    lag_time_accumulator := 0
    debug_refresh_duration := 0 }

/-- A320Hydraulic::is_blue_pressurised. -/
def A320Hydraulic.is_blue_pressurised (s : A320Hydraulic) : Bool :=
  decide (s.blue_loop.get_pressure ≥ A320Hydraulic.MIN_PRESS_PRESSURISED)

/-- A320Hydraulic::is_green_pressurised. -/
def A320Hydraulic.is_green_pressurised (s : A320Hydraulic) : Bool :=
  decide (s.green_loop.get_pressure ≥ A320Hydraulic.MIN_PRESS_PRESSURISED)

/-- A320Hydraulic::is_yellow_pressurised. -/
def A320Hydraulic.is_yellow_pressurised (s : A320Hydraulic) : Bool :=
  decide (s.yellow_loop.get_pressure ≥ A320Hydraulic.MIN_PRESS_PRESSURISED)

/-- A320Hydraulic::update_hyd_logic_inputs (a320/hydraulic.rs lines
158-200): cockpit-to-pump logic.  The yellow electric pump mapping is the
inverted one present in the source (is_off → start, is_on → stop). -/
def A320Hydraulic.update_hyd_logic_inputs (s : A320Hydraulic)
    (overhead_panel : A320HydraulicOverheadPanel) : A320Hydraulic :=
  let edp1 :=
    if overhead_panel.edp1_push_button.is_auto then s.engine_driven_pump_1.start
    else if overhead_panel.edp1_push_button.is_off then s.engine_driven_pump_1.stop
    else s.engine_driven_pump_1
  let edp2 :=
    if overhead_panel.edp2_push_button.is_auto then s.engine_driven_pump_2.start
    else if overhead_panel.edp2_push_button.is_off then s.engine_driven_pump_2.stop
    else s.engine_driven_pump_2
  let yellow_epump :=
    if overhead_panel.yellow_epump_push_button.is_off then s.yellow_electric_pump.start
    else if overhead_panel.yellow_epump_push_button.is_on then s.yellow_electric_pump.stop
    else s.yellow_electric_pump
  let blue_epump :=
    if overhead_panel.blue_epump_push_button.is_auto then s.blue_electric_pump.start
    else if overhead_panel.blue_epump_push_button.is_off then s.blue_electric_pump.stop
    else s.blue_electric_pump
  let ptu_inhibit := s.hyd_logic_inputs.cargo_door_operation &&
    overhead_panel.yellow_epump_push_button.is_off
  let ptu :=
    if overhead_panel.ptu_push_button.is_auto &&
        (s.hyd_logic_inputs.weight_on_wheels ||
          s.hyd_logic_inputs.eng_1_master_on && s.hyd_logic_inputs.eng_2_master_on ||
          !s.hyd_logic_inputs.eng_1_master_on && !s.hyd_logic_inputs.eng_2_master_on ||
          (!s.hyd_logic_inputs.parking_brake_applied &&
            !s.hyd_logic_inputs.nws_tow_engaged)) &&
        !ptu_inhibit then
      s.ptu.enabling true
    else
      s.ptu.enabling false
  { s with
    engine_driven_pump_1 := edp1
    engine_driven_pump_2 := edp2
    yellow_electric_pump := yellow_epump
    blue_electric_pump := blue_epump
    ptu := ptu }

/-- Body of the fixed-step update loop of A320Hydraulic::update
(a320/hydraulic.rs lines 138-147): one hydraulic sub-step at `delta_time`,
updating the PTU against (green, yellow), each pump against its loop, and
then each loop with its pumps and PTUs. -/
def A320Hydraulic.fixed_step_update (s : A320Hydraulic) (delta_time : ℚ)
    (engine1 engine2 : Engine) : A320Hydraulic :=
  let ptu1 := s.ptu.update s.green_loop s.yellow_loop
  let edp1 := s.engine_driven_pump_1.update delta_time s.green_loop engine1
  let edp2 := s.engine_driven_pump_2.update delta_time s.yellow_loop engine2
  let yellow_epump := s.yellow_electric_pump.update delta_time s.yellow_loop
  let blue_epump := s.blue_electric_pump.update delta_time s.blue_loop
  let green_loop1 := s.green_loop.update delta_time [] [edp1] [] [ptu1]
  let yellow_loop1 := s.yellow_loop.update delta_time [yellow_epump] [edp2] [] [ptu1]
  let blue_loop1 := s.blue_loop.update delta_time [blue_epump] [] [] []
  { s with
    ptu := ptu1
    engine_driven_pump_1 := edp1
    engine_driven_pump_2 := edp2
    yellow_electric_pump := yellow_epump
    blue_electric_pump := blue_epump
    green_loop := green_loop1
    yellow_loop := yellow_loop1
    blue_loop := blue_loop1 }

/-- A320Hydraulic::update (a320/hydraulic.rs lines 92-156): the fixed-step
driver.  `delta` is the host frame time in seconds. -/
def A320Hydraulic.update (s : A320Hydraulic) (delta : ℚ)
    (engine1 engine2 : Engine) (overhead_panel : A320HydraulicOverheadPanel) :
    A320Hydraulic :=
  let min_hyd_loop_timestep := A320Hydraulic.HYDRAULIC_SIM_TIME_STEP
  let total_sim_time_elapsed := s.total_sim_time_elapsed + delta
  let time_to_catch := delta + s.lag_time_accumulator
  let number_of_steps := time_to_catch / min_hyd_loop_timestep
  let debug_refresh_duration :=
    if s.debug_refresh_duration + delta > 0.3 then 0
    else s.debug_refresh_duration + delta
  if number_of_steps < 1 then
    { s with
      total_sim_time_elapsed := total_sim_time_elapsed
      debug_refresh_duration := debug_refresh_duration
      lag_time_accumulator := number_of_steps * min_hyd_loop_timestep }
  else
    let num_of_update_loops := (⌊number_of_steps⌋).toNat
    let s1 :=
      { s with
        total_sim_time_elapsed := total_sim_time_elapsed
        debug_refresh_duration := debug_refresh_duration
        lag_time_accumulator :=
          (number_of_steps - (num_of_update_loops : ℚ)) * min_hyd_loop_timestep }
    let s2 := s1.update_hyd_logic_inputs overhead_panel
    (fun st => st.fixed_step_update min_hyd_loop_timestep engine1 engine2)^[num_of_update_loops] s2

/-- Left-to-right transfer branch engagement condition of Ptu::update
(line 286): `isActiveLeft || (!isActiveRight && deltaP > 500)`. -/
def Ptu.left_branch_engaged (p : Ptu) (loopLeft loopRight : HydLoop) : Prop :=
  p.isActiveLeft = true ∨
    (p.isActiveRight = false ∧ loopLeft.get_pressure - loopRight.get_pressure > 500)

/-- Right-to-left transfer branch engagement condition of Ptu::update
(line 302): `isActiveRight || (!isActiveLeft && deltaP < -500)`. -/
def Ptu.right_branch_engaged (p : Ptu) (loopLeft loopRight : HydLoop) : Prop :=
  p.isActiveRight = true ∨
    (p.isActiveLeft = false ∧ loopLeft.get_pressure - loopRight.get_pressure < -500)

/-- Ptu states reachable from Ptu::new by any sequence of update calls
(with arbitrary loop states) and enabling calls. -/
inductive PtuReachable : Ptu → Prop where
  | new : PtuReachable Ptu.new
  | update {p : Ptu} (loopLeft loopRight : HydLoop) :
      PtuReachable p → PtuReachable (p.update loopLeft loopRight)
  | enabling {p : Ptu} (b : Bool) :
      PtuReachable p → PtuReachable (p.enabling b)

/-- A320 hydraulic system states reachable from A320Hydraulic::new by host
ticks (A320Hydraulic::update), individual fixed sub-steps with any
dt > 0, cockpit logic applications with any panel state, and simulator
reads of the logic inputs (SimulatorElement::read, a320/hydraulic.rs
lines 242-247). -/
inductive A320Reachable : A320Hydraulic → Prop where
  | new : A320Reachable A320Hydraulic.new
  | update {s : A320Hydraulic} (delta : ℚ) (engine1 engine2 : Engine)
      (panel : A320HydraulicOverheadPanel) :
      A320Reachable s → A320Reachable (s.update delta engine1 engine2 panel)
  | fixed_step {s : A320Hydraulic} (delta_time : ℚ) (engine1 engine2 : Engine) :
      A320Reachable s → 0 < delta_time →
        A320Reachable (s.fixed_step_update delta_time engine1 engine2)
  | logic {s : A320Hydraulic} (panel : A320HydraulicOverheadPanel) :
      A320Reachable s → A320Reachable (s.update_hyd_logic_inputs panel)
  | read {s : A320Hydraulic} (pb e1 e2 : Bool) :
      A320Reachable s →
        A320Reachable
          { s with
            hyd_logic_inputs :=
              { s.hyd_logic_inputs with
                parking_brake_applied := pb
                eng_1_master_on := e1
                eng_2_master_on := e2 } }

/-- Invariant carried through A320Reachable for the safety claims: each
loop keeps its pressure clamped at or above 14.7 psi, a non-negative
reservoir, and a positive high-pressure volume. -/
def HydLoopSafeInv (l : HydLoop) : Prop :=
  14.7 ≤ l.loop_pressure ∧ 0 ≤ l.reservoir_volume ∧ 0 < l.high_pressure_volume

/-- System-level conjunction of the per-loop safety invariant. -/
def A320SafeInv (s : A320Hydraulic) : Prop :=
  HydLoopSafeInv s.blue_loop ∧ HydLoopSafeInv s.green_loop ∧ HydLoopSafeInv s.yellow_loop

/-- The x-axis of the spec's S6 interpolation boundary scenario
(also tests::utility_tests::interp_test, hydraulic/mod.rs line 1525). -/
def INTERP_TEST_XS : List ℚ :=
  [-100, -10, 10, 240, 320, 435.3, 678.9, 890.3, 10005, 203493.7]

/-- The y-axis of the spec's S6 interpolation boundary scenario
(hydraulic/mod.rs line 1526). -/
def INTERP_TEST_YS : List ℚ :=
  [-200, 10, 40, -553, 238.4, 30423.3, 23000.2, 32000.4, 43200.2, 34.2]

/-- A blue-style loop (no PTU connection) with the pressure raised to
1000 psi, used to exhibit the volume-balance violation of one sub-step. -/
def c1_cex_loop : HydLoop :=
  { HydLoop.new LoopColor.Blue false false 15.85 15.85 8.0 1.5
      (HydFluid.new (pascalsToPsi 1450000000)) with loop_pressure := 1000 }

/-- A blue-style loop with the pressure raised to 3000 psi, so the
accumulator gas pressure (1885 psi) is below the loop pressure and the
charging branch of the accumulator block runs. -/
def c2_cex_loop : HydLoop :=
  { HydLoop.new LoopColor.Blue false false 15.85 15.85 8.0 1.5
      (HydFluid.new (pascalsToPsi 1450000000)) with loop_pressure := 3000 }

/-- A loop connected to the PTU right side (the yellow loop construction
of A320Hydraulic::new). -/
def c6_cex_loop : HydLoop :=
  HydLoop.new LoopColor.Blue false true 26.00 26.41 10.0 3.83
    (HydFluid.new (pascalsToPsi 1450000000))

/-- A PTU whose right side is active (isActiveRight, the state produced by
the right-to-left transfer branch) and whose left side is not. -/
def c6_cex_ptu : Ptu :=
  { isEnabled := true
    isActiveRight := true
    isActiveLeft := false
    flow_to_right := -1/100
    flow_to_left := 7/1000
    last_flow := 1/100 }

/-- A left (green-style) loop at 601 psi with pump capacity available. -/
def c4_cex_left : HydLoop :=
  { HydLoop.new LoopColor.Green true false 10.2 10.2 8.0 3.3
      (HydFluid.new (pascalsToPsi 1450000000)) with
    loop_pressure := 601
    current_max_flow := 10 }

/-- A right (yellow-style) loop at 100 psi: below the 500 psi deactivation
threshold on the destination side of a left-to-right transfer. -/
def c4_cex_right : HydLoop :=
  { HydLoop.new LoopColor.Blue false true 26.00 26.41 10.0 3.83
      (HydFluid.new (pascalsToPsi 1450000000)) with loop_pressure := 100 }

/-- An idle enabled PTU. -/
def c4_cex_ptu : Ptu := { Ptu.new with isEnabled := true }

/-- A left loop at 2000 psi publishing ample max flow, for the witness of
the amended deactivation property. -/
def c4_wit_left : HydLoop :=
  { HydLoop.new LoopColor.Green true false 10.2 10.2 8.0 3.3
      (HydFluid.new (pascalsToPsi 1450000000)) with
    loop_pressure := 2000
    current_max_flow := 100 }

/-- A right loop over the 3001 psi deactivation threshold. -/
def c4_wit_right : HydLoop :=
  { HydLoop.new LoopColor.Blue false true 26.00 26.41 10.0 3.83
      (HydFluid.new (pascalsToPsi 1450000000)) with loop_pressure := 3500 }

/-- An enabled PTU whose left side is already active. -/
def c4_wit_ptu : Ptu := { Ptu.new with isEnabled := true, isActiveLeft := true }

/-- Overhead panel that commands the blue electric pump on (blue push
button Auto) and everything else off; the yellow push button reads On,
which the source's inverted logic maps to stop. -/
def panel_blue_on : A320HydraulicOverheadPanel :=
  { edp1_push_button := .Off
    edp2_push_button := .Off
    blue_epump_push_button := .Auto
    ptu_push_button := .Off
    rat_push_button := .Off
    yellow_epump_push_button := .On }

/-- Overhead panel identical to panel_blue_on but with the blue electric
pump push button Off. -/
def panel_blue_off : A320HydraulicOverheadPanel :=
  { panel_blue_on with blue_epump_push_button := .Off }

/-- Engine input with N2 at zero percent. -/
def engine_n2_zero : Engine := ⟨0⟩

/-- System state after commanding the blue electric pump on and running a
single 4 s sub-step from A320Hydraulic::new: the blue loop reaches
2253.675 psi and its reservoir drops below its initial 1.5 gal. -/
def c9_sys1 : A320Hydraulic :=
  (A320Hydraulic.new.update_hyd_logic_inputs panel_blue_on).fixed_step_update 4
    engine_n2_zero engine_n2_zero

/-- System state after additionally commanding the blue pump off and
running a 10 s sub-step: the static leak returned to the blue reservoir
pushes it above its initial 1.5 gal. -/
def c9_sys2 : A320Hydraulic :=
  (c9_sys1.update_hyd_logic_inputs panel_blue_off).fixed_step_update 10
    engine_n2_zero engine_n2_zero

/-- The blue loop of c9_sys1, written out field by field. -/
def c9_blue_loop_1 : HydLoop :=
  { fluid := ⟨1450000000000000000000/6894757293168361⟩
    accumulator_gas_pressure := 1885
    accumulator_gas_volume := 33/125
    accumulator_fluid_volume := 0
    accumulator_press_breakpoints := HydLoop.ACCUMULATOR_PRESS_BREAKPTS
    accumulator_flow_carac := HydLoop.ACCUMULATOR_FLOW_CARAC
    color := LoopColor.Blue
    connected_to_ptu_left_side := false
    connected_to_ptu_right_side := false
    loop_pressure := 90147/40
    loop_volume := 287487079189472955080933/18125000000000000000000
    max_loop_volume := 317/20
    high_pressure_volume := 8
    ptu_active := false
    reservoir_volume := 2512920810527044919067/1812500000000000000000
    current_delta_vol := 205829189472955080933/18125000000000000000000
    current_flow := 205829189472955080933/72500000000000000000000
    current_max_flow := 4997/34650 }

/-- The blue electric pump of c9_sys1, written out field by field. -/
def c9_blue_epump_1 : ElectricPump :=
  { active := true
    rpm := 7600
    pump :=
      { delta_vol_max := 9994/17325
        delta_vol_min := 0
        pressBreakpoints := ElectricPump.DISPLACEMENT_BREAKPTS
        displacementCarac := ElectricPump.DISPLACEMENT_MAP
        displacement_dynamic := 1 } }

/-- Sub-step length that drives the blue accumulator fluid volume to
exactly ACCUMULATOR_MAX_VOLUME: 0.264 gal divided by the accumulator flow
47743/400000 gal/s interpolated at |1885 - 2253.675| psi. -/
def c3_dt : ℚ := 105600/47743

/-- The reachable state from which the zero-denominator sub-step starts. -/
def c3_pre_sys : A320Hydraulic := c9_sys1.update_hyd_logic_inputs panel_blue_off

/-- The system after the c3_dt sub-step: the blue loop's accumulator fluid
volume equals ACCUMULATOR_MAX_VOLUME, so the divisor of the Boyle-law
re-derivation (line 564 of hydraulic/mod.rs) is exactly zero during this
very update. -/
def c3_sys : A320Hydraulic :=
  c3_pre_sys.fixed_step_update c3_dt engine_n2_zero engine_n2_zero

theorem interpSearch_le (xs : List ℚ) (x : ℚ) (idx : ℕ) : idx ≤ interpSearch xs x idx := by
  induction idx using interpSearch.induct xs x with
  | case1 i h1 h2 => rw [interpSearch, if_pos h1, if_pos h2]
  | case2 i h1 h2 ih => rw [interpSearch, if_pos h1, if_neg h2]; omega
  | case3 i h1 => rw [interpSearch, if_neg h1]

theorem interpSearch_ub (xs : List ℚ) (x : ℚ) (idx : ℕ) :
    interpSearch xs x idx ≤ max idx (xs.length - 1) := by
  induction idx using interpSearch.induct xs x with
  | case1 i h1 h2 => rw [interpSearch, if_pos h1, if_pos h2]; omega
  | case2 i h1 h2 ih => rw [interpSearch, if_pos h1, if_neg h2]; omega
  | case3 i h1 => rw [interpSearch, if_neg h1]; omega

theorem interpSearch_lt_of_lt (xs : List ℚ) (x : ℚ) (idx : ℕ)
    (h : interpSearch xs x idx < xs.length - 1) :
    x < xs.getD (interpSearch xs x idx) 0 := by
  induction idx using interpSearch.induct xs x with
  | case1 i h1 h2 => rwa [interpSearch, if_pos h1, if_pos h2] at h ⊢
  | case2 i h1 h2 ih =>
      rw [interpSearch, if_pos h1, if_neg h2] at h ⊢
      exact ih h
  | case3 i h1 => rw [interpSearch, if_neg h1] at h; omega

theorem interpSearch_skipped (xs : List ℚ) (x : ℚ) (idx j : ℕ)
    (hj : idx ≤ j) (hj2 : j < interpSearch xs x idx) : xs.getD j 0 ≤ x := by
  induction idx using interpSearch.induct xs x with
  | case1 i h1 h2 => rw [interpSearch, if_pos h1, if_pos h2] at hj2; omega
  | case2 i h1 h2 ih =>
      rw [interpSearch, if_pos h1, if_neg h2] at hj2
      rcases Nat.eq_or_lt_of_le hj with rfl | hlt
      · push_neg at h2; exact h2
      · exact ih hlt hj2
  | case3 i h1 => rw [interpSearch, if_neg h1] at hj2; omega

theorem sorted_getD_lt (xs : List ℚ) (hs : xs.Sorted (· < ·)) (i j : ℕ)
    (hij : i < j) (hj : j < xs.length) : xs.getD i 0 < xs.getD j 0 := by
  rw [List.getD_eq_getElem xs 0 (lt_trans hij hj), List.getD_eq_getElem xs 0 hj]
  exact List.pairwise_iff_getElem.mp hs i j (lt_trans hij hj) hj hij

theorem interpolation_clamp_low (xs ys : List ℚ) (x : ℚ) (h : x ≤ xs.getD 0 0) :
    interpolation xs ys x = ys.getD 0 0 := by
  rw [interpolation, if_pos h]

theorem interpolation_clamp_high (xs ys : List ℚ) (x : ℚ) (h2 : 2 ≤ xs.length)
    (hs : xs.Sorted (· < ·)) (h : xs.getD (xs.length - 1) 0 ≤ x) :
    interpolation xs ys x = ys.getD (ys.length - 1) 0 := by
  have h0 : xs.getD 0 0 < xs.getD (xs.length - 1) 0 :=
    sorted_getD_lt xs hs 0 (xs.length - 1) (by omega) (by omega)
  rw [interpolation, if_neg (by push_neg; linarith), if_pos (by exact h)]

theorem interpolation_segment (xs ys : List ℚ) (x : ℚ)
    (hlo : xs.getD 0 0 < x) (hhi : x < xs.getD (xs.length - 1) 0) :
    ∃ i, i + 1 ≤ xs.length - 1 ∧ xs.getD i 0 ≤ x ∧ x < xs.getD (i + 1) 0 ∧
      interpolation xs ys x =
        ys.getD i 0 + (x - xs.getD i 0) / (xs.getD (i + 1) 0 - xs.getD i 0) *
          (ys.getD (i + 1) 0 - ys.getD i 0) := by
  have hlen : 2 ≤ xs.length := by
    match xs, hlo, hhi with
    | [], hlo, hhi => simp only [List.getD_nil] at hlo hhi; linarith
    | [a], hlo, hhi =>
        simp only [List.length_singleton, Nat.sub_self, List.getD_cons_zero] at hlo hhi
        linarith
    | a :: b :: t, _, _ => simp only [List.length_cons]; omega
  have hr1 : 1 ≤ interpSearch xs x 1 := interpSearch_le xs x 1
  have hrub : interpSearch xs x 1 ≤ xs.length - 1 := by
    have := interpSearch_ub xs x 1
    omega
  refine ⟨interpSearch xs x 1 - 1, by omega, ?_, ?_, ?_⟩
  · rcases Nat.eq_or_lt_of_le hr1 with heq | hlt
    · rw [← heq]
      exact le_of_lt hlo
    · exact interpSearch_skipped xs x 1 (interpSearch xs x 1 - 1) (by omega) (by omega)
  · rw [Nat.sub_add_cancel hr1]
    rcases Nat.eq_or_lt_of_le hrub with heq | hlt
    · rw [heq]; exact hhi
    · exact interpSearch_lt_of_lt xs x 1 hlt
  · rw [interpolation, if_neg (by push_neg; exact hlo), if_neg (by push_neg; exact hhi)]
    rw [Nat.sub_add_cancel hr1]

theorem interp_s6_at_358 :
    interpolation INTERP_TEST_XS INTERP_TEST_YS 358 = 58725686/5765 := by
  rw [interpolation]
  rw [interpSearch, interpSearch, interpSearch, interpSearch, interpSearch]
  norm_num [INTERP_TEST_XS, INTERP_TEST_YS]

theorem interp_s6_at_22200 :
    interpolation INTERP_TEST_XS INTERP_TEST_YS 22200 = 391617058387/9674435 := by
  rw [interpolation]
  rw [interpSearch, interpSearch, interpSearch, interpSearch, interpSearch, interpSearch,
    interpSearch, interpSearch, interpSearch]
  norm_num [INTERP_TEST_XS, INTERP_TEST_YS]

theorem interp_s6_at_neg50 :
    interpolation INTERP_TEST_XS INTERP_TEST_YS (-50) = -250/3 := by
  rw [interpolation]
  rw [interpSearch]
  norm_num [INTERP_TEST_XS, INTERP_TEST_YS]

/-- C8: `interpolation` clamps to the endpoint `ys` values outside the
breakpoint range and is the piecewise-linear interpolant on the segment
containing `x` inside it; on the S6 table it takes the claimed endpoint
values exactly and the claimed interior values within 0.001. -/
theorem C8_interpolation_boundaries :
    (∀ (xs ys : List ℚ) (x : ℚ), xs.length = ys.length → 2 ≤ xs.length →
      xs.Sorted (· < ·) →
      (x ≤ xs.getD 0 0 → interpolation xs ys x = ys.getD 0 0) ∧
      (xs.getD (xs.length - 1) 0 ≤ x →
        interpolation xs ys x = ys.getD (ys.length - 1) 0) ∧
      (xs.getD 0 0 < x → x < xs.getD (xs.length - 1) 0 →
        ∃ i, i + 1 ≤ xs.length - 1 ∧ xs.getD i 0 ≤ x ∧ x < xs.getD (i + 1) 0 ∧
          interpolation xs ys x =
            ys.getD i 0 + (x - xs.getD i 0) / (xs.getD (i + 1) 0 - xs.getD i 0) *
              (ys.getD (i + 1) 0 - ys.getD i 0))) ∧
    interpolation INTERP_TEST_XS INTERP_TEST_YS (-500) = -200 ∧
    interpolation INTERP_TEST_XS INTERP_TEST_YS 100000000 = 34.2 ∧
    interpolation INTERP_TEST_XS INTERP_TEST_YS (-100) = -200 ∧
    interpolation INTERP_TEST_XS INTERP_TEST_YS 203493.7 = 34.2 ∧
    |interpolation INTERP_TEST_XS INTERP_TEST_YS 358 - 10186.589| < 0.001 ∧
    |interpolation INTERP_TEST_XS INTERP_TEST_YS 22200 - 40479.579| < 0.001 ∧
    |interpolation INTERP_TEST_XS INTERP_TEST_YS (-50) - (-83.333)| < 0.001 := by
  refine ⟨?_, ?_, ?_, ?_, ?_, ?_, ?_, ?_⟩
  · intro xs ys x hlen h2 hs
    exact ⟨interpolation_clamp_low xs ys x,
      interpolation_clamp_high xs ys x h2 hs,
      interpolation_segment xs ys x⟩
  · rw [interpolation_clamp_low] <;> norm_num [INTERP_TEST_XS, INTERP_TEST_YS]
  · rw [interpolation_clamp_high]
    · norm_num [INTERP_TEST_YS]
    · norm_num [INTERP_TEST_XS]
    · norm_num [INTERP_TEST_XS, List.Sorted, List.pairwise_cons]
    · norm_num [INTERP_TEST_XS]
  · rw [interpolation_clamp_low] <;> norm_num [INTERP_TEST_XS, INTERP_TEST_YS]
  · rw [interpolation_clamp_high]
    · norm_num [INTERP_TEST_YS]
    · norm_num [INTERP_TEST_XS]
    · norm_num [INTERP_TEST_XS, List.Sorted, List.pairwise_cons]
    · norm_num [INTERP_TEST_XS]
  · rw [interp_s6_at_358]; norm_num [abs_lt]
  · rw [interp_s6_at_22200]; norm_num [abs_lt]
  · rw [interp_s6_at_neg50]; norm_num [abs_lt]

/-- Witness for C8: the general clauses applied to a concrete table. -/
theorem C8_interpolation_boundaries_witness :
    interpolation [0, 1] [5, 9] (-3) = 5 :=
  (C8_interpolation_boundaries.1 [0, 1] [5, 9] (-3) rfl (by norm_num)
    (by norm_num [List.Sorted, List.pairwise_cons])).1 (by norm_num)

theorem Ptu.update_preserves_mutex (p : Ptu) (loopLeft loopRight : HydLoop)
    (h : ¬(p.isActiveLeft = true ∧ p.isActiveRight = true)) :
    ¬((p.update loopLeft loopRight).isActiveLeft = true ∧
      (p.update loopLeft loopRight).isActiveRight = true) := by
  simp only [Ptu.update]
  split_ifs with hA h1 hd1 h2 hd2 <;> simp_all
  rcases h1 with hL | ⟨hR, _⟩
  · exact h hL
  · exact hR

/-- C5: in every state reachable from Ptu::new by update and enabling
calls with arbitrary loop states, at most one of isActiveLeft and
isActiveRight is true. -/
theorem C5_ptu_active_flags_mutually_exclusive (p : Ptu) (h : PtuReachable p) :
    ¬(p.isActiveLeft = true ∧ p.isActiveRight = true) := by
  induction h with
  | new => simp [Ptu.new]
  | update loopLeft loopRight hr ih =>
      exact Ptu.update_preserves_mutex _ loopLeft loopRight ih
  | enabling b hr ih => simpa [Ptu.enabling] using ih

/-- Witness for C5 at the initial PTU state. -/
theorem C5_ptu_active_flags_mutually_exclusive_witness :
    ¬(Ptu.new.isActiveLeft = true ∧ Ptu.new.isActiveRight = true) :=
  C5_ptu_active_flags_mutually_exclusive Ptu.new PtuReachable.new


/-- Amended C4: in a Ptu::update call with enabled = true, mutually
exclusive active flags, and a transfer branch engaged, the deactivation
block (hydraulic/mod.rs lines 320-331) clears both active flags and zeroes
all flows when the engaged branch's source side is below 500 psi or its
destination side is over 3001 psi.  (The claim's "either side below
500 psi" fails: see the counterexample.) -/
theorem C4_amended_ptu_deactivation (p : Ptu) (loopLeft loopRight : HydLoop)
    (hen : p.isEnabled = true)
    (hmx : ¬(p.isActiveLeft = true ∧ p.isActiveRight = true)) :
    (p.left_branch_engaged loopLeft loopRight →
      (loopRight.loop_pressure > 3001 ∨ loopLeft.loop_pressure < 500) →
      (p.update loopLeft loopRight).isActiveLeft = false ∧
        (p.update loopLeft loopRight).isActiveRight = false ∧
        (p.update loopLeft loopRight).flow_to_left = 0 ∧
        (p.update loopLeft loopRight).flow_to_right = 0 ∧
        (p.update loopLeft loopRight).last_flow = 0) ∧
    (p.right_branch_engaged loopLeft loopRight →
      (loopLeft.loop_pressure > 3001 ∨ loopRight.loop_pressure < 500) →
      (p.update loopLeft loopRight).isActiveLeft = false ∧
        (p.update loopLeft loopRight).isActiveRight = false ∧
        (p.update loopLeft loopRight).flow_to_left = 0 ∧
        (p.update loopLeft loopRight).flow_to_right = 0 ∧
        (p.update loopLeft loopRight).last_flow = 0) := by
  constructor
  · intro heng hcond
    have hc1 : p.isActiveLeft = true ∨
        (p.isActiveRight = false ∧
          loopLeft.get_pressure - loopRight.get_pressure > 500) := heng
    have hR : p.isActiveRight = false := by
      rcases hc1 with hL | ⟨hR, _⟩
      · cases hRv : p.isActiveRight with
        | false => rfl
        | true => exact absurd ⟨hL, hRv⟩ hmx
      · exact hR
    simp only [Ptu.update, Ptu.left_branch_engaged] at *
    split_ifs <;> simp_all
  · intro heng hcond
    have hc2 : p.isActiveRight = true ∨
        (p.isActiveLeft = false ∧
          loopLeft.get_pressure - loopRight.get_pressure < -500) := heng
    have hL : p.isActiveLeft = false := by
      rcases hc2 with hR | ⟨hL, _⟩
      · cases hLv : p.isActiveLeft with
        | false => rfl
        | true => exact absurd ⟨hLv, hR⟩ hmx
      · exact hL
    have hnc1 : ¬(p.isActiveLeft = true ∨
        (p.isActiveRight = false ∧
          loopLeft.get_pressure - loopRight.get_pressure > 500)) := by
      rintro (hL2 | ⟨hR2, hgt⟩)
      · rw [hL] at hL2; exact Bool.false_ne_true hL2
      · rcases hc2 with hR | ⟨_, hlt⟩
        · rw [hR2] at hR; exact Bool.false_ne_true hR
        · linarith
    simp only [Ptu.update, Ptu.right_branch_engaged] at *
    split_ifs <;> simp_all

/-- Witness for the amended C4: an engaged left-to-right transfer at
2000 psi source with the destination at 3500 psi (over 3001) deactivates
and zeroes every flow. -/
theorem C4_amended_ptu_deactivation_witness :
    (c4_wit_ptu.update c4_wit_left c4_wit_right).isActiveLeft = false ∧
      (c4_wit_ptu.update c4_wit_left c4_wit_right).isActiveRight = false ∧
      (c4_wit_ptu.update c4_wit_left c4_wit_right).flow_to_left = 0 ∧
      (c4_wit_ptu.update c4_wit_left c4_wit_right).flow_to_right = 0 ∧
      (c4_wit_ptu.update c4_wit_left c4_wit_right).last_flow = 0 :=
  (C4_amended_ptu_deactivation c4_wit_ptu c4_wit_left c4_wit_right
    (by norm_num [c4_wit_ptu, Ptu.new])
    (by norm_num [c4_wit_ptu, Ptu.new])).1
    (Or.inl (by norm_num [c4_wit_ptu, Ptu.new]))
    (Or.inl (by norm_num [c4_wit_right, HydLoop.new]))

/-- Counterexample to C4 as stated: with the PTU enabled and the
left-to-right branch engaged (601 psi against 100 psi), the destination
side is below 500 psi, yet after Ptu::update the left active flag is still
true and a non-zero flow is published: the 500 psi deactivation check only
looks at the engaged side's own loop pressure. -/
theorem C4_counterexample_destination_below_500 :
    c4_cex_ptu.isEnabled = true ∧
      c4_cex_ptu.left_branch_engaged c4_cex_left c4_cex_right ∧
      c4_cex_right.loop_pressure < 500 ∧
      (c4_cex_ptu.update c4_cex_left c4_cex_right).isActiveLeft = true ∧
      (c4_cex_ptu.update c4_cex_left c4_cex_right).flow_to_right ≠ 0 := by
  refine ⟨rfl, ?_, by norm_num [c4_cex_right, HydLoop.new], ?_, ?_⟩
  · refine Or.inr ⟨rfl, ?_⟩
    norm_num [c4_cex_left, c4_cex_right, HydLoop.new, HydLoop.get_pressure]
  · norm_num [c4_cex_ptu, c4_cex_left, c4_cex_right, Ptu.update, Ptu.new, HydLoop.new,
      HydLoop.get_pressure, Ptu.AGRESSIVENESS_FACTOR,
      Ptu.FLOW_DYNAMIC_LOW_PASS_LEFT_SIDE, Ptu.FLOW_DYNAMIC_LOW_PASS_RIGHT_SIDE,
      min_def, max_def]
  · norm_num [c4_cex_ptu, c4_cex_left, c4_cex_right, Ptu.update, Ptu.new, HydLoop.new,
      HydLoop.get_pressure, Ptu.AGRESSIVENESS_FACTOR,
      Ptu.FLOW_DYNAMIC_LOW_PASS_LEFT_SIDE, Ptu.FLOW_DYNAMIC_LOW_PASS_RIGHT_SIDE,
      min_def, max_def]

theorem ptu_flows_foldl_sum (s : HydLoop) (delta_time : ℚ) (ptus : List Ptu)
    (acc : PtuFlowState) :
    (ptus.foldl (s.ptu_flows_step delta_time) acc).delta_vol +
        (ptus.foldl (s.ptu_flows_step delta_time) acc).reservoir_volume +
        (ptus.foldl (s.ptu_flows_step delta_time) acc).reservoir_return =
      acc.delta_vol + acc.reservoir_volume + acc.reservoir_return := by
  induction ptus generalizing acc with
  | nil => rfl
  | cons ptu rest ih =>
      rw [List.foldl_cons, ih]
      simp only [HydLoop.ptu_flows_step, usableReservoirFlow]
      split_ifs <;> simp <;> ring

/-- Amended C1: over one HydLoop::update sub-step (with any pumps and any
attached PTUs) the change in reservoir, loop body and accumulator fluid
volume sums to 9 times the drop of the published current_delta_vol, i.e.
the residue injected by the delta-vol low-pass filter (line 607).  The
static leak does not appear in the balance because the source returns it
to the reservoir (line 487); the sum is zero exactly when the filter is at
steady state.  Summing two instances gives the same identity for a
PTU-coupled Green/Yellow pair. -/
theorem C1_amended_volume_balance (s : HydLoop) (delta_time : ℚ)
    (electric_pumps : List ElectricPump) (engine_driven_pumps : List EngineDrivenPump)
    (ram_air_pumps : List RatPump) (ptus : List Ptu) (_hdt : 0 < delta_time) :
    ((s.update delta_time electric_pumps engine_driven_pumps ram_air_pumps
          ptus).reservoir_volume - s.reservoir_volume) +
        ((s.update delta_time electric_pumps engine_driven_pumps ram_air_pumps
          ptus).loop_volume - s.loop_volume) +
        ((s.update delta_time electric_pumps engine_driven_pumps ram_air_pumps
          ptus).accumulator_fluid_volume - s.accumulator_fluid_volume) =
      9 * (s.current_delta_vol -
        (s.update delta_time electric_pumps engine_driven_pumps ram_air_pumps
          ptus).current_delta_vol) := by
  have hsum := ptu_flows_foldl_sum s delta_time ptus
    { delta_vol := 0 - 0.04 * delta_time * (s.loop_pressure - 14.7) / 3000
      reservoir_volume := s.reservoir_volume
      reservoir_return := 0 + 0.04 * delta_time * (s.loop_pressure - 14.7) / 3000
      ptu_act := false }
  simp only [HydLoop.update, HydLoop.accumulator_stage,
    HydLoop.DELTA_VOL_LOW_PASS_FILTER] at *
  split_ifs <;> linarith [hsum]

theorem interp_acc_885 :
    interpolation HydLoop.ACCUMULATOR_PRESS_BREAKPTS HydLoop.ACCUMULATOR_FLOW_CARAC 885 =
      38/125 := by
  rw [interpolation]
  rw [interpSearch, interpSearch, interpSearch, interpSearch, interpSearch, interpSearch,
    interpSearch]
  norm_num [HydLoop.ACCUMULATOR_PRESS_BREAKPTS, HydLoop.ACCUMULATOR_FLOW_CARAC]

theorem interp_acc_1115 :
    interpolation HydLoop.ACCUMULATOR_PRESS_BREAKPTS HydLoop.ACCUMULATOR_FLOW_CARAC 1115 =
      4223/12000 := by
  rw [interpolation]
  rw [interpSearch, interpSearch, interpSearch, interpSearch, interpSearch, interpSearch,
    interpSearch, interpSearch]
  norm_num [HydLoop.ACCUMULATOR_PRESS_BREAKPTS, HydLoop.ACCUMULATOR_FLOW_CARAC]

/-- Counterexample to C1 as stated: a pressurised loop with no PTU, after
one 100 ms sub-step, has Δreservoir + Δloop_volume + Δaccumulator_fluid +
static_leak + consumer_sink = 1.9 x static_leak, not zero: the leak is
returned to the reservoir rather than lost, and the delta-vol low-pass
filter changes the loop volume by the filtered rather than the actual
delta volume. -/
theorem C1_counterexample_balance_not_zero :
    ((c1_cex_loop.update (1/10) [] [] [] []).reservoir_volume -
          c1_cex_loop.reservoir_volume) +
        ((c1_cex_loop.update (1/10) [] [] [] []).loop_volume - c1_cex_loop.loop_volume) +
        ((c1_cex_loop.update (1/10) [] [] [] []).accumulator_fluid_volume -
          c1_cex_loop.accumulator_fluid_volume) +
        0.04 * (1/10) * (c1_cex_loop.loop_pressure - 14.7) / 3000 + 0 ≠ 0 := by
  norm_num [c1_cex_loop, HydLoop.update, HydLoop.new, HydLoop.accumulator_stage,
    HydLoop.vol_to_target, HydLoop.delta_pressure_from_delta_volume, HydFluid.new,
    HydFluid.get_bulk_mod, pascalsToPsi, PSI_IN_PASCAL,
    HydLoop.ACCUMULATOR_GAS_PRE_CHARGE, HydLoop.ACCUMULATOR_MAX_VOLUME,
    HydLoop.PRESSURE_LOW_PASS_FILTER, HydLoop.DELTA_VOL_LOW_PASS_FILTER,
    interp_acc_885, min_def, max_def, abs]

/-- Witness for the amended C1 at a concrete loop state and dt = 0.1 s. -/
theorem C1_amended_volume_balance_witness :
    0 < (1/10 : ℚ) ∧
      ((c1_cex_loop.update (1/10) [] [] [] []).reservoir_volume -
            c1_cex_loop.reservoir_volume) +
          ((c1_cex_loop.update (1/10) [] [] [] []).loop_volume - c1_cex_loop.loop_volume) +
          ((c1_cex_loop.update (1/10) [] [] [] []).accumulator_fluid_volume -
            c1_cex_loop.accumulator_fluid_volume) =
        9 * (c1_cex_loop.current_delta_vol -
          (c1_cex_loop.update (1/10) [] [] [] []).current_delta_vol) :=
  ⟨by norm_num, C1_amended_volume_balance c1_cex_loop (1/10) [] [] [] [] (by norm_num)⟩

/-- Amended C2: when the accumulator gas pressure is at most the loop
pressure, the volume the update moves from the loop into the accumulator
fluid equals `max (max delta_vol 0) (F * dt)` - the source's two `.max`
calls (line 558), not the spec's `max 0 (min delta_vol (F * dt))`.  Here
delta_vol entering the accumulator block is -static_leak (stated for calls
with no PTUs), and F is the interpolated accumulator flow at the absolute
pressure difference.  In particular the charged volume is always at least
F * dt; it is not capped by delta_vol. -/
theorem C2_amended_accumulator_charge (s : HydLoop) (delta_time : ℚ)
    (electric_pumps : List ElectricPump) (engine_driven_pumps : List EngineDrivenPump)
    (ram_air_pumps : List RatPump)
    (hacc : s.accumulator_gas_pressure ≤ s.loop_pressure) :
    (s.update delta_time electric_pumps engine_driven_pumps ram_air_pumps
          []).accumulator_fluid_volume - s.accumulator_fluid_volume =
        max (max (-(0.04 * delta_time * (s.loop_pressure - 14.7) / 3000)) 0)
          (interpolation s.accumulator_press_breakpoints s.accumulator_flow_carac
            |s.accumulator_gas_pressure - s.loop_pressure| * delta_time) ∧
      interpolation s.accumulator_press_breakpoints s.accumulator_flow_carac
          |s.accumulator_gas_pressure - s.loop_pressure| * delta_time ≤
        (s.update delta_time electric_pumps engine_driven_pumps ram_air_pumps
          []).accumulator_fluid_volume - s.accumulator_fluid_volume := by
  have hcond : ¬(s.accumulator_gas_pressure - s.loop_pressure > 0) := by linarith
  have hmain : (s.update delta_time electric_pumps engine_driven_pumps ram_air_pumps
        []).accumulator_fluid_volume - s.accumulator_fluid_volume =
      max (max (-(0.04 * delta_time * (s.loop_pressure - 14.7) / 3000)) 0)
        (interpolation s.accumulator_press_breakpoints s.accumulator_flow_carac
          |s.accumulator_gas_pressure - s.loop_pressure| * delta_time) := by
    simp only [HydLoop.update, HydLoop.accumulator_stage, List.foldl_nil, if_neg hcond,
      zero_sub]
    ring_nf
  exact ⟨hmain, hmain ▸ le_max_right _ _⟩

/-- Witness for the amended C2 at a 3000 psi loop state and dt = 0.1 s. -/
theorem C2_amended_accumulator_charge_witness :
    c2_cex_loop.accumulator_gas_pressure ≤ c2_cex_loop.loop_pressure ∧
      (c2_cex_loop.update (1/10) [] [] [] []).accumulator_fluid_volume -
          c2_cex_loop.accumulator_fluid_volume =
        max (max (-(0.04 * (1/10) * (c2_cex_loop.loop_pressure - 14.7) / 3000)) 0)
          (interpolation c2_cex_loop.accumulator_press_breakpoints
            c2_cex_loop.accumulator_flow_carac
            |c2_cex_loop.accumulator_gas_pressure - c2_cex_loop.loop_pressure| * (1/10)) :=
  ⟨by norm_num [c2_cex_loop, HydLoop.new, HydLoop.ACCUMULATOR_GAS_PRE_CHARGE],
    (C2_amended_accumulator_charge c2_cex_loop (1/10) [] [] []
      (by norm_num [c2_cex_loop, HydLoop.new, HydLoop.ACCUMULATOR_GAS_PRE_CHARGE])).1⟩

/-- Counterexample to C2 as stated: at 3000 psi the accumulator charges
(gas pressure 1885 <= 3000), delta_vol entering the block is
-static_leak < 0, F * dt = 4223/120000 > 0, and the update moves
4223/120000 gallons into the accumulator fluid, while the claimed formula
max(0, min(delta_vol, F*dt)) evaluates to 0: the charged volume exceeds
the positive part of delta_vol. -/
theorem C2_counterexample_charge_is_not_min :
    c2_cex_loop.accumulator_gas_pressure ≤ c2_cex_loop.loop_pressure ∧
      (c2_cex_loop.update (1/10) [] [] [] []).accumulator_fluid_volume -
          c2_cex_loop.accumulator_fluid_volume = 4223/120000 ∧
      max (0 : ℚ)
          (min (0 - 0.04 * (1/10) * (c2_cex_loop.loop_pressure - 14.7) / 3000)
            (4223/12000 * (1/10))) = 0 ∧
      (4223/120000 : ℚ) ≠ 0 := by
  refine ⟨by norm_num [c2_cex_loop, HydLoop.new, HydLoop.ACCUMULATOR_GAS_PRE_CHARGE],
    ?_, ?_, by norm_num⟩
  · norm_num [c2_cex_loop, HydLoop.update, HydLoop.new, HydLoop.accumulator_stage,
      HydLoop.vol_to_target, HydLoop.delta_pressure_from_delta_volume, HydFluid.new,
      HydFluid.get_bulk_mod, pascalsToPsi, PSI_IN_PASCAL,
      HydLoop.ACCUMULATOR_GAS_PRE_CHARGE, HydLoop.ACCUMULATOR_MAX_VOLUME,
      HydLoop.PRESSURE_LOW_PASS_FILTER, HydLoop.DELTA_VOL_LOW_PASS_FILTER,
      interp_acc_1115, min_def, max_def, abs]
  · norm_num [c2_cex_loop, HydLoop.new, min_def, max_def]

/-- C6 (code bug): a loop connected to the PTU right side, updated with a
PTU whose right side is active (isActiveRight = true, isActiveLeft =
false), publishes ptu_active = false, because lines 494 and 509 test
`ptu.isActiveLeft || ptu.isActiveLeft` and never consult isActiveRight.
The spec requires ptu_active to be set when any attached PTU has an active
side, and flags this very disjunct as a typo (section 9, item 4). -/
theorem C6_ptu_active_ignores_right_side :
    c6_cex_ptu.isActiveRight = true ∧ c6_cex_ptu.isActiveLeft = false ∧
      (c6_cex_loop.update (1/10) [] [] [] [c6_cex_ptu]).ptu_active = false := by
  refine ⟨rfl, rfl, ?_⟩
  norm_num [c6_cex_loop, c6_cex_ptu, HydLoop.update, HydLoop.new, HydLoop.ptu_flows_step,
    usableReservoirFlow]

theorem usableReservoirFlow_mul_le (r a dt : ℚ) (hdt : 0 < dt) :
    usableReservoirFlow r a dt * dt ≤ r := by
  unfold usableReservoirFlow
  split_ifs with h
  · rw [div_mul_cancel₀ _ (ne_of_gt hdt)]
  · exact (le_div_iff₀ hdt).mp (not_lt.mp h)

theorem ptu_flows_step_nonneg (s : HydLoop) (delta_time : ℚ) (acc : PtuFlowState)
    (ptu : Ptu) (hdt : 0 < delta_time) (hres : 0 ≤ acc.reservoir_volume)
    (hret : 0 ≤ acc.reservoir_return) :
    0 ≤ (s.ptu_flows_step delta_time acc ptu).reservoir_volume ∧
      0 ≤ (s.ptu_flows_step delta_time acc ptu).reservoir_return := by
  have hdrawL := usableReservoirFlow_mul_le acc.reservoir_volume ptu.flow_to_left
    delta_time hdt
  have hdrawR := usableReservoirFlow_mul_le acc.reservoir_volume ptu.flow_to_right
    delta_time hdt
  simp only [HydLoop.ptu_flows_step]
  split_ifs with hL hf hR hf2 <;> refine ⟨?_, ?_⟩
  · simpa using hdrawL
  · exact hret
  · exact hres
  · have : ptu.flow_to_left * delta_time ≤ 0 :=
      mul_nonpos_of_nonpos_of_nonneg (not_lt.mp hf) (le_of_lt hdt)
    simpa using by linarith
  · simpa using hdrawR
  · exact hret
  · exact hres
  · have : ptu.flow_to_right * delta_time ≤ 0 :=
      mul_nonpos_of_nonpos_of_nonneg (not_lt.mp hf2) (le_of_lt hdt)
    simpa using by linarith
  · exact hres
  · exact hret

theorem ptu_flows_foldl_nonneg (s : HydLoop) (delta_time : ℚ) (ptus : List Ptu)
    (acc : PtuFlowState) (hdt : 0 < delta_time) (hres : 0 ≤ acc.reservoir_volume)
    (hret : 0 ≤ acc.reservoir_return) :
    0 ≤ (ptus.foldl (s.ptu_flows_step delta_time) acc).reservoir_volume ∧
      0 ≤ (ptus.foldl (s.ptu_flows_step delta_time) acc).reservoir_return := by
  induction ptus generalizing acc with
  | nil => exact ⟨hres, hret⟩
  | cons ptu rest ih =>
      rw [List.foldl_cons]
      obtain ⟨h1, h2⟩ := ptu_flows_step_nonneg s delta_time acc ptu hdt hres hret
      exact ih _ h1 h2

theorem reservoir_step_nonneg (r ret dvmax diff x : ℚ) (c : Prop) [Decidable c]
    (_hr : 0 ≤ r) (hret : 0 ≤ ret) :
    0 ≤ r - (if c then min (min r dvmax) diff else 0) -
        min (r - (if c then min (min r dvmax) diff else 0)) x + ret := by
  split_ifs with h
  · have h1 : min (min r dvmax) diff ≤ r := le_trans (min_le_left _ _) (min_le_left _ _)
    have h2 := min_le_left (r - min (min r dvmax) diff) x
    linarith
  · have h2 := min_le_left (r - 0) x
    linarith

theorem HydLoop.update_loop_pressure_ge (s : HydLoop) (delta_time : ℚ)
    (electric_pumps : List ElectricPump) (engine_driven_pumps : List EngineDrivenPump)
    (ram_air_pumps : List RatPump) (ptus : List Ptu) :
    14.7 ≤ (s.update delta_time electric_pumps engine_driven_pumps ram_air_pumps
      ptus).loop_pressure := by
  simp only [HydLoop.update]
  exact le_max_right _ _

theorem HydLoop.update_high_pressure_volume_eq (s : HydLoop) (delta_time : ℚ)
    (electric_pumps : List ElectricPump) (engine_driven_pumps : List EngineDrivenPump)
    (ram_air_pumps : List RatPump) (ptus : List Ptu) :
    (s.update delta_time electric_pumps engine_driven_pumps ram_air_pumps
      ptus).high_pressure_volume = s.high_pressure_volume := rfl

theorem HydLoop.update_reservoir_nonneg (s : HydLoop) (delta_time : ℚ)
    (electric_pumps : List ElectricPump) (engine_driven_pumps : List EngineDrivenPump)
    (ram_air_pumps : List RatPump) (ptus : List Ptu) (hdt : 0 < delta_time)
    (hP : 14.7 ≤ s.loop_pressure) (hres : 0 ≤ s.reservoir_volume) :
    0 ≤ (s.update delta_time electric_pumps engine_driven_pumps ram_air_pumps
      ptus).reservoir_volume := by
  have hleak : 0 ≤ 0.04 * delta_time * (s.loop_pressure - 14.7) / 3000 := by
    have h1 : 0 ≤ s.loop_pressure - 14.7 := by linarith
    positivity
  obtain ⟨hres1, hret1⟩ := ptu_flows_foldl_nonneg s delta_time ptus
    { delta_vol := 0 - 0.04 * delta_time * (s.loop_pressure - 14.7) / 3000
      reservoir_volume := s.reservoir_volume
      reservoir_return := 0 + 0.04 * delta_time * (s.loop_pressure - 14.7) / 3000
      ptu_act := false }
    hdt hres (by simpa using hleak)
  simp only [HydLoop.update]
  exact reservoir_step_nonneg _ _ _ _ _ _ hres1 hret1

theorem HydLoop.update_safe_inv (s : HydLoop) (delta_time : ℚ)
    (electric_pumps : List ElectricPump) (engine_driven_pumps : List EngineDrivenPump)
    (ram_air_pumps : List RatPump) (ptus : List Ptu) (hdt : 0 < delta_time)
    (h : HydLoopSafeInv s) :
    HydLoopSafeInv (s.update delta_time electric_pumps engine_driven_pumps
      ram_air_pumps ptus) := by
  obtain ⟨hP, hres, hhp⟩ := h
  refine ⟨HydLoop.update_loop_pressure_ge _ _ _ _ _ _,
    HydLoop.update_reservoir_nonneg _ _ _ _ _ _ hdt hP hres, ?_⟩
  rw [HydLoop.update_high_pressure_volume_eq]
  exact hhp

theorem A320Hydraulic.fixed_step_update_safe_inv (s : A320Hydraulic) (delta_time : ℚ)
    (engine1 engine2 : Engine) (hdt : 0 < delta_time) (h : A320SafeInv s) :
    A320SafeInv (s.fixed_step_update delta_time engine1 engine2) := by
  obtain ⟨hb, hg, hy⟩ := h
  exact ⟨HydLoop.update_safe_inv _ _ _ _ _ _ hdt hb,
    HydLoop.update_safe_inv _ _ _ _ _ _ hdt hg,
    HydLoop.update_safe_inv _ _ _ _ _ _ hdt hy⟩

theorem iterate_fixed_step_safe_inv (delta_time : ℚ) (engine1 engine2 : Engine)
    (hdt : 0 < delta_time) (n : ℕ) (s : A320Hydraulic) (h : A320SafeInv s) :
    A320SafeInv ((fun st => st.fixed_step_update delta_time engine1 engine2)^[n] s) := by
  induction n generalizing s with
  | zero => exact h
  | succ n ih =>
      rw [Function.iterate_succ_apply]
      exact ih _ (A320Hydraulic.fixed_step_update_safe_inv s delta_time engine1 engine2
        hdt h)

theorem A320Reachable_safe_inv (s : A320Hydraulic) (h : A320Reachable s) :
    A320SafeInv s := by
  induction h with
  | new =>
      refine ⟨⟨?_, ?_, ?_⟩, ⟨?_, ?_, ?_⟩, ⟨?_, ?_, ?_⟩⟩ <;>
        norm_num [A320Hydraulic.new, HydLoop.new]
  | update delta engine1 engine2 panel hr ih =>
      simp only [A320Hydraulic.update]
      split_ifs <;>
        first
          | exact ih
          | exact iterate_fixed_step_safe_inv A320Hydraulic.HYDRAULIC_SIM_TIME_STEP
              engine1 engine2 (by norm_num [A320Hydraulic.HYDRAULIC_SIM_TIME_STEP]) _ _ ih
  | fixed_step delta_time engine1 engine2 hr hdt ih =>
      exact A320Hydraulic.fixed_step_update_safe_inv _ _ _ _ hdt ih
  | logic panel hr ih => exact ih
  | read pb e1 e2 hr ih => exact ih

theorem interp_epump_disp_147 :
    interpolation ElectricPump.DISPLACEMENT_BREAKPTS ElectricPump.DISPLACEMENT_MAP
      (147/10) = 263/1000 := by
  rw [interpolation]
  rw [interpSearch]
  norm_num [ElectricPump.DISPLACEMENT_BREAKPTS, ElectricPump.DISPLACEMENT_MAP]

theorem interp_epump_disp_90147 :
    interpolation ElectricPump.DISPLACEMENT_BREAKPTS ElectricPump.DISPLACEMENT_MAP
      (90147/40) = 263/1000 := by
  rw [interpolation]
  rw [interpSearch, interpSearch, interpSearch, interpSearch]
  norm_num [ElectricPump.DISPLACEMENT_BREAKPTS, ElectricPump.DISPLACEMENT_MAP]

theorem interp_edp_disp_147 :
    interpolation EngineDrivenPump.DISPLACEMENT_BREAKPTS EngineDrivenPump.DISPLACEMENT_MAP
      (147/10) = 12/5 := by
  rw [interpolation]
  rw [interpSearch]
  norm_num [EngineDrivenPump.DISPLACEMENT_BREAKPTS, EngineDrivenPump.DISPLACEMENT_MAP]

theorem interp_acc_18703 :
    interpolation HydLoop.ACCUMULATOR_PRESS_BREAKPTS HydLoop.ACCUMULATOR_FLOW_CARAC
      (18703/10) = 72901/200000 := by
  rw [interpolation]
  rw [interpSearch, interpSearch, interpSearch, interpSearch, interpSearch, interpSearch,
    interpSearch, interpSearch]
  norm_num [HydLoop.ACCUMULATOR_PRESS_BREAKPTS, HydLoop.ACCUMULATOR_FLOW_CARAC]

theorem interp_acc_14747 :
    interpolation HydLoop.ACCUMULATOR_PRESS_BREAKPTS HydLoop.ACCUMULATOR_FLOW_CARAC
      (14747/40) = 47743/400000 := by
  rw [interpolation]
  rw [interpSearch, interpSearch, interpSearch, interpSearch, interpSearch, interpSearch]
  norm_num [HydLoop.ACCUMULATOR_PRESS_BREAKPTS, HydLoop.ACCUMULATOR_FLOW_CARAC]

set_option maxHeartbeats 1000000 in
theorem c9_sys1_blue_loop_eq : c9_sys1.blue_loop = c9_blue_loop_1 := by
  norm_num [c9_sys1, c9_blue_loop_1, A320Hydraulic.new, A320Hydraulic.update_hyd_logic_inputs,
    A320Hydraulic.fixed_step_update, A320HydraulicLogic.new, panel_blue_on,
    engine_n2_zero, AutoOffFaultPushButtonPosition.is_auto,
    AutoOffFaultPushButtonPosition.is_off, OnOffFaultPushButtonPosition.is_on,
    OnOffFaultPushButtonPosition.is_off, EngineDrivenPump.new, ElectricPump.new, Ptu.new,
    EngineDrivenPump.start, EngineDrivenPump.stop, ElectricPump.start, ElectricPump.stop,
    Ptu.enabling, Ptu.update, ElectricPump.update, Pump.new,
    Pump.update, Pump.calculate_displacement, Pump.calculate_flow,
    ElectricPump.NOMINAL_SPEED, ElectricPump.SPOOLUP_TIME, ElectricPump.SPOOLDOWN_TIME,
    ElectricPump.DISPLACEMENT_DYNAMICS,
    HydLoop.update, HydLoop.new, HydLoop.accumulator_stage, HydLoop.vol_to_target,
    HydLoop.delta_pressure_from_delta_volume, HydLoop.get_pressure, HydFluid.new,
    HydFluid.get_bulk_mod, pascalsToPsi, PSI_IN_PASCAL,
    HydLoop.ACCUMULATOR_GAS_PRE_CHARGE, HydLoop.ACCUMULATOR_MAX_VOLUME,
    HydLoop.PRESSURE_LOW_PASS_FILTER, HydLoop.DELTA_VOL_LOW_PASS_FILTER,
    interp_acc_18703, interp_epump_disp_147, min_def, max_def, abs]

set_option maxHeartbeats 1000000 in
theorem c9_sys1_blue_epump_eq : c9_sys1.blue_electric_pump = c9_blue_epump_1 := by
  norm_num [c9_sys1, c9_blue_epump_1, A320Hydraulic.new, A320Hydraulic.update_hyd_logic_inputs,
    A320Hydraulic.fixed_step_update, A320HydraulicLogic.new, panel_blue_on,
    engine_n2_zero, AutoOffFaultPushButtonPosition.is_auto,
    AutoOffFaultPushButtonPosition.is_off, OnOffFaultPushButtonPosition.is_on,
    OnOffFaultPushButtonPosition.is_off, ElectricPump.new,
    ElectricPump.start, ElectricPump.stop,
    ElectricPump.update, Pump.new,
    Pump.update, Pump.calculate_displacement, Pump.calculate_flow,
    ElectricPump.NOMINAL_SPEED, ElectricPump.SPOOLUP_TIME, ElectricPump.SPOOLDOWN_TIME,
    ElectricPump.DISPLACEMENT_DYNAMICS, HydLoop.new, HydLoop.get_pressure, HydFluid.new,
    pascalsToPsi, PSI_IN_PASCAL, interp_epump_disp_147, min_def, max_def]

set_option maxHeartbeats 1000000 in
theorem c9_sys2_blue_reservoir_eq : c9_sys2.blue_loop.reservoir_volume =
    3054006435527044919067/1812500000000000000000 := by
  norm_num [c9_sys2, c9_blue_loop_1, c9_blue_epump_1, c9_sys1_blue_loop_eq,
    c9_sys1_blue_epump_eq,
    A320Hydraulic.update_hyd_logic_inputs,
    A320Hydraulic.fixed_step_update, panel_blue_off, panel_blue_on,
    engine_n2_zero, AutoOffFaultPushButtonPosition.is_auto,
    AutoOffFaultPushButtonPosition.is_off, OnOffFaultPushButtonPosition.is_on,
    OnOffFaultPushButtonPosition.is_off,
    EngineDrivenPump.start, EngineDrivenPump.stop, ElectricPump.start, ElectricPump.stop,
    Ptu.enabling, ElectricPump.update, Pump.update, Pump.calculate_displacement,
    Pump.calculate_flow,
    ElectricPump.NOMINAL_SPEED, ElectricPump.SPOOLUP_TIME, ElectricPump.SPOOLDOWN_TIME,
    HydLoop.update, HydLoop.accumulator_stage, HydLoop.vol_to_target,
    HydLoop.delta_pressure_from_delta_volume, HydLoop.get_pressure,
    HydFluid.get_bulk_mod,
    HydLoop.ACCUMULATOR_GAS_PRE_CHARGE, HydLoop.ACCUMULATOR_MAX_VOLUME,
    HydLoop.PRESSURE_LOW_PASS_FILTER, HydLoop.DELTA_VOL_LOW_PASS_FILTER,
    interp_acc_14747, interp_epump_disp_90147, min_def, max_def, abs]

/-- Amended C9: in every reachable state of the A320 hydraulic system,
each loop's reservoir_volume is at least 0.  The upper bound by the
construction value does not hold (see the counterexample). -/
theorem C9_amended_reservoir_nonneg (s : A320Hydraulic) (h : A320Reachable s) :
    0 ≤ s.blue_loop.reservoir_volume ∧ 0 ≤ s.green_loop.reservoir_volume ∧
      0 ≤ s.yellow_loop.reservoir_volume :=
  ⟨(A320Reachable_safe_inv s h).1.2.1, (A320Reachable_safe_inv s h).2.1.2.1,
    (A320Reachable_safe_inv s h).2.2.2.1⟩

/-- Witness for the amended C9 at the freshly constructed system. -/
theorem C9_amended_reservoir_nonneg_witness :
    0 ≤ A320Hydraulic.new.blue_loop.reservoir_volume ∧
      0 ≤ A320Hydraulic.new.green_loop.reservoir_volume ∧
      0 ≤ A320Hydraulic.new.yellow_loop.reservoir_volume :=
  C9_amended_reservoir_nonneg A320Hydraulic.new A320Reachable.new

/-- Counterexample to C9 as stated: the blue loop is constructed with a
1.5 gal reservoir, and after commanding its electric pump on for one 4 s
sub-step and off for one 10 s sub-step, the reservoir holds about
1.685 gal > 1.5 gal: the static leak of the pressurised loop is returned
to the reservoir while no pump withdraws anything. -/
theorem C9_counterexample_reservoir_exceeds_initial :
    A320Reachable c9_sys2 ∧ A320Hydraulic.new.blue_loop.reservoir_volume = 3/2 ∧
      3/2 < c9_sys2.blue_loop.reservoir_volume := by
  refine ⟨?_, by norm_num [A320Hydraulic.new, HydLoop.new], ?_⟩
  · exact A320Reachable.fixed_step 10 engine_n2_zero engine_n2_zero
      (A320Reachable.logic panel_blue_off
        (A320Reachable.fixed_step 4 engine_n2_zero engine_n2_zero
          (A320Reachable.logic panel_blue_on A320Reachable.new) (by norm_num)))
      (by norm_num)
  · rw [c9_sys2_blue_reservoir_eq]
    norm_num

set_option maxHeartbeats 1000000 in
theorem c3_sys_blue_acc_fluid_eq :
    c3_sys.blue_loop.accumulator_fluid_volume = 33/125 := by
  norm_num [c3_sys, c3_pre_sys, c3_dt, c9_blue_loop_1, c9_blue_epump_1,
    c9_sys1_blue_loop_eq, c9_sys1_blue_epump_eq,
    A320Hydraulic.update_hyd_logic_inputs,
    A320Hydraulic.fixed_step_update, panel_blue_off, panel_blue_on,
    engine_n2_zero, AutoOffFaultPushButtonPosition.is_auto,
    AutoOffFaultPushButtonPosition.is_off, OnOffFaultPushButtonPosition.is_on,
    OnOffFaultPushButtonPosition.is_off,
    EngineDrivenPump.start, EngineDrivenPump.stop, ElectricPump.start, ElectricPump.stop,
    Ptu.enabling, ElectricPump.update, Pump.update, Pump.calculate_displacement,
    Pump.calculate_flow,
    ElectricPump.NOMINAL_SPEED, ElectricPump.SPOOLUP_TIME, ElectricPump.SPOOLDOWN_TIME,
    HydLoop.update, HydLoop.accumulator_stage, HydLoop.vol_to_target,
    HydLoop.delta_pressure_from_delta_volume, HydLoop.get_pressure,
    HydFluid.get_bulk_mod,
    HydLoop.ACCUMULATOR_GAS_PRE_CHARGE, HydLoop.ACCUMULATOR_MAX_VOLUME,
    HydLoop.PRESSURE_LOW_PASS_FILTER, HydLoop.DELTA_VOL_LOW_PASS_FILTER,
    interp_acc_14747, interp_epump_disp_90147, min_def, max_def, abs]

/-- Amended C3: in every reachable state the high_pressure_volume used as
the denominator of the bulk-modulus pressure step is non-zero for all
three loops.  The accumulator denominator claim fails: see the
counterexample, where a reachable state and a positive dt drive
accumulator_fluid_volume to exactly ACCUMULATOR_MAX_VOLUME within the
sub-step that divides by their difference. -/
theorem C3_amended_high_pressure_volume_nonzero (s : A320Hydraulic)
    (h : A320Reachable s) :
    s.blue_loop.high_pressure_volume ≠ 0 ∧ s.green_loop.high_pressure_volume ≠ 0 ∧
      s.yellow_loop.high_pressure_volume ≠ 0 :=
  ⟨ne_of_gt (A320Reachable_safe_inv s h).1.2.2,
    ne_of_gt (A320Reachable_safe_inv s h).2.1.2.2,
    ne_of_gt (A320Reachable_safe_inv s h).2.2.2.2⟩

/-- Witness for the amended C3 at the freshly constructed system. -/
theorem C3_amended_high_pressure_volume_nonzero_witness :
    A320Hydraulic.new.blue_loop.high_pressure_volume ≠ 0 ∧
      A320Hydraulic.new.green_loop.high_pressure_volume ≠ 0 ∧
      A320Hydraulic.new.yellow_loop.high_pressure_volume ≠ 0 :=
  C3_amended_high_pressure_volume_nonzero A320Hydraulic.new A320Reachable.new

/-- Counterexample to C3 as stated: from the reachable state c3_pre_sys,
the sub-step of length c3_dt > 0 charges the blue accumulator to exactly
ACCUMULATOR_MAX_VOLUME = 0.264 gal, so the denominator
ACCUMULATOR_MAX_VOLUME - accumulator_fluid_volume of the gas-pressure
re-derivation (hydraulic/mod.rs line 564) is exactly zero inside that very
HydLoop::update call. -/
theorem C3_counterexample_accumulator_denominator_zero :
    A320Reachable c3_pre_sys ∧ 0 < c3_dt ∧
      HydLoop.ACCUMULATOR_MAX_VOLUME - c3_sys.blue_loop.accumulator_fluid_volume = 0 := by
  refine ⟨?_, by norm_num [c3_dt], ?_⟩
  · exact A320Reachable.logic panel_blue_off
      (A320Reachable.fixed_step 4 engine_n2_zero engine_n2_zero
        (A320Reachable.logic panel_blue_on A320Reachable.new) (by norm_num))
  · rw [c3_sys_blue_acc_fluid_eq]
    norm_num [HydLoop.ACCUMULATOR_MAX_VOLUME]

theorem A320Hydraulic.fixed_step_update_lag (s : A320Hydraulic) (delta_time : ℚ)
    (engine1 engine2 : Engine) :
    (s.fixed_step_update delta_time engine1 engine2).lag_time_accumulator =
      s.lag_time_accumulator := rfl

theorem A320Hydraulic.update_hyd_logic_inputs_lag (s : A320Hydraulic)
    (panel : A320HydraulicOverheadPanel) :
    (s.update_hyd_logic_inputs panel).lag_time_accumulator =
      s.lag_time_accumulator := rfl

theorem iterate_fixed_step_lag (delta_time : ℚ) (engine1 engine2 : Engine) (n : ℕ)
    (s : A320Hydraulic) :
    ((fun st => st.fixed_step_update delta_time engine1 engine2)^[n]
        s).lag_time_accumulator = s.lag_time_accumulator := by
  induction n generalizing s with
  | zero => rfl
  | succ n ih =>
      rw [Function.iterate_succ_apply, ih]
      exact A320Hydraulic.fixed_step_update_lag s delta_time engine1 engine2

/-- C7: the fixed-step driver A320Hydraulic::update with frame time
delta > 0 and a non-negative lag accumulator: if (delta + lag)/0.1 < 1 it
performs no pump, PTU or loop update and carries delta + lag into the lag
accumulator; otherwise it applies the cockpit logic once and then exactly
floor(steps) fixed sub-steps, each at exactly the 100 ms
HYDRAULIC_SIM_TIME_STEP, leaving (steps - floor(steps)) * 100 ms in the
lag accumulator; in both cases the resulting lag accumulator is below
100 ms. -/
theorem C7_fixed_step_driver (s : A320Hydraulic) (delta : ℚ)
    (engine1 engine2 : Engine) (panel : A320HydraulicOverheadPanel)
    (hdt : 0 < delta) (hlag : 0 ≤ s.lag_time_accumulator) :
    A320Hydraulic.HYDRAULIC_SIM_TIME_STEP = 1/10 ∧
    (delta + s.lag_time_accumulator < A320Hydraulic.HYDRAULIC_SIM_TIME_STEP →
      s.update delta engine1 engine2 panel =
        { s with
          total_sim_time_elapsed := s.total_sim_time_elapsed + delta
          debug_refresh_duration :=
            if s.debug_refresh_duration + delta > 0.3 then 0
            else s.debug_refresh_duration + delta
          lag_time_accumulator := delta + s.lag_time_accumulator }) ∧
    (A320Hydraulic.HYDRAULIC_SIM_TIME_STEP ≤ delta + s.lag_time_accumulator →
      s.update delta engine1 engine2 panel =
        (fun st =>
            st.fixed_step_update A320Hydraulic.HYDRAULIC_SIM_TIME_STEP engine1
              engine2)^[(⌊(delta + s.lag_time_accumulator) /
                A320Hydraulic.HYDRAULIC_SIM_TIME_STEP⌋).toNat]
          (A320Hydraulic.update_hyd_logic_inputs
            { s with
              total_sim_time_elapsed := s.total_sim_time_elapsed + delta
              debug_refresh_duration :=
                if s.debug_refresh_duration + delta > 0.3 then 0
                else s.debug_refresh_duration + delta
              lag_time_accumulator :=
                ((delta + s.lag_time_accumulator) /
                      A320Hydraulic.HYDRAULIC_SIM_TIME_STEP -
                    (⌊(delta + s.lag_time_accumulator) /
                      A320Hydraulic.HYDRAULIC_SIM_TIME_STEP⌋ : ℤ)) *
                  A320Hydraulic.HYDRAULIC_SIM_TIME_STEP } panel) ∧
      1 ≤ ⌊(delta + s.lag_time_accumulator) / A320Hydraulic.HYDRAULIC_SIM_TIME_STEP⌋) ∧
    (s.update delta engine1 engine2 panel).lag_time_accumulator <
      A320Hydraulic.HYDRAULIC_SIM_TIME_STEP := by
  have hT : A320Hydraulic.HYDRAULIC_SIM_TIME_STEP = (1/10 : ℚ) := by
    norm_num [A320Hydraulic.HYDRAULIC_SIM_TIME_STEP]
  set T := A320Hydraulic.HYDRAULIC_SIM_TIME_STEP with hTdef
  have hT0 : (0:ℚ) < T := by rw [hT]; norm_num
  set t := delta + s.lag_time_accumulator with ht
  have htpos : 0 < t := by positivity
  have hsteps_eq : t / T * T = t := div_mul_cancel₀ t (ne_of_gt hT0)
  have hb1 : t < T →
      s.update delta engine1 engine2 panel =
        { s with
          total_sim_time_elapsed := s.total_sim_time_elapsed + delta
          debug_refresh_duration :=
            if s.debug_refresh_duration + delta > 0.3 then 0
            else s.debug_refresh_duration + delta
          lag_time_accumulator := t } := by
    intro h
    have hcond : t / T < 1 := (div_lt_one hT0).mpr h
    simp only [A320Hydraulic.update, ← hTdef, ← ht, if_pos hcond]
    rw [hsteps_eq]
  have hb2 : T ≤ t →
      s.update delta engine1 engine2 panel =
        (fun st => st.fixed_step_update T engine1 engine2)^[(⌊t / T⌋).toNat]
          (A320Hydraulic.update_hyd_logic_inputs
            { s with
              total_sim_time_elapsed := s.total_sim_time_elapsed + delta
              debug_refresh_duration :=
                if s.debug_refresh_duration + delta > 0.3 then 0
                else s.debug_refresh_duration + delta
              lag_time_accumulator := (t / T - (⌊t / T⌋ : ℤ)) * T } panel) ∧
      1 ≤ ⌊t / T⌋ := by
    intro h
    have hge1 : (1:ℚ) ≤ t / T := (le_div_iff₀ hT0).mpr (by linarith)
    have hfloor1 : 1 ≤ ⌊t / T⌋ := by
      have := Int.le_floor.mpr (by exact_mod_cast hge1)
      exact_mod_cast this
    have hcond : ¬(t / T < 1) := not_lt.mpr hge1
    refine ⟨?_, hfloor1⟩
    simp only [A320Hydraulic.update, ← hTdef, ← ht, if_neg hcond]
    have hcast : ((⌊t / T⌋.toNat : ℕ) : ℚ) = ((⌊t / T⌋ : ℤ) : ℚ) := by
      have h0 := Int.toNat_of_nonneg (le_trans Int.one_nonneg hfloor1)
      exact_mod_cast congrArg (fun z : ℤ => (z : ℚ)) h0
    rw [hcast]
  refine ⟨hT, hb1, hb2, ?_⟩
  rcases lt_or_le t T with hc | hc
  · rw [hb1 hc]
    exact hc
  · rw [(hb2 hc).1, iterate_fixed_step_lag, A320Hydraulic.update_hyd_logic_inputs_lag]
    have hfr : t / T - (⌊t / T⌋ : ℤ) < 1 := by
      have := Int.lt_floor_add_one (t / T)
      push_cast at this ⊢
      linarith
    calc (t / T - (⌊t / T⌋ : ℤ)) * T < 1 * T := by
          exact mul_lt_mul_of_pos_right hfr hT0
      _ = T := one_mul T

/-- Witness for C7 at the freshly constructed system with a 250 ms frame. -/
theorem C7_fixed_step_driver_witness :
    (A320Hydraulic.new.update (1/4) engine_n2_zero engine_n2_zero
        panel_blue_on).lag_time_accumulator < A320Hydraulic.HYDRAULIC_SIM_TIME_STEP :=
  (C7_fixed_step_driver A320Hydraulic.new (1/4) engine_n2_zero engine_n2_zero
    panel_blue_on (by norm_num) (by norm_num [A320Hydraulic.new])).2.2.2

/-- C10: A320Hydraulic::update_hyd_logic_inputs starts the yellow electric
pump exactly when its push button reads off and stops it when it reads on
(the inverted mapping of a320/hydraulic.rs lines 169-173), unlike the blue
electric pump, which is started exactly when its push button reads auto. -/
theorem C10_yellow_epump_inverted_logic (s : A320Hydraulic)
    (panel : A320HydraulicOverheadPanel) :
    ((s.update_hyd_logic_inputs panel).yellow_electric_pump.active = true ↔
      panel.yellow_epump_push_button = OnOffFaultPushButtonPosition.Off) ∧
    ((s.update_hyd_logic_inputs panel).blue_electric_pump.active = true ↔
      panel.blue_epump_push_button = AutoOffFaultPushButtonPosition.Auto) := by
  constructor
  · cases h : panel.yellow_epump_push_button <;>
      simp [A320Hydraulic.update_hyd_logic_inputs, h,
        OnOffFaultPushButtonPosition.is_on, OnOffFaultPushButtonPosition.is_off,
        ElectricPump.start, ElectricPump.stop]
  · cases h : panel.blue_epump_push_button <;>
      simp [A320Hydraulic.update_hyd_logic_inputs, h,
        AutoOffFaultPushButtonPosition.is_auto, AutoOffFaultPushButtonPosition.is_off,
        ElectricPump.start, ElectricPump.stop]
